import Mathlib

/-!
# OFSwitch13NetDevice

A shallow embedding of `src/model/ofswitch13-net-device.cc` (the ns-3 OpenFlow 1.3
switch device) and theorems about its observable behaviour.

Conventions of the embedding:

* `std::map<uint64_t, V>` is the list of its entries in iteration order (`StdMap`);
* a `Ptr<Packet>` is the address of an ns-3 packet object in the object store of the
  simulation (`SwitchState.objects`), the null pointer is `none`;
* calls that leave the file (port transmission, pipeline engine, controller socket,
  scheduler) and the `NS_LOG_ERROR` / `NS_LOG_WARN` lines are recorded, in program order,
  in a trace of `Event`s; a log line is its fixed text, without the numbers the source
  streams into it;
* a static callback of the pipeline engine (`DpActionsOutputPort`, `BufferSaveCallback`,
  ...) is given for the device that `GetDatapathDevice (pkt->dp->id)` resolves to;
* a failed `NS_ASSERT_MSG`, an `NS_FATAL_ERROR` and C++ undefined behaviour end a call with
  a `Fault`.
-/

namespace ofswitch13

/-! ## `std::map` -/

/-- Model of `std::map<uint64_t, V>`: its entries, in iteration order. -/
abbrev StdMap (V : Type) := List (Nat × V)

namespace StdMap

/-- The call `m.find (k)`: the mapped value, `none` standing for `m.end ()`. -/
def find {V : Type} : StdMap V → Nat → Option V
  | [], _ => none
  | (a, b) :: t, k => if a = k then some b else find t k

/-- Where `std::map` puts a new key: before the first larger key. -/
def place {V : Type} (k : Nat) (v : V) : StdMap V → StdMap V
  | [] => [(k, v)]
  | (a, b) :: t => if k < a then (k, v) :: (a, b) :: t else (a, b) :: place k v t

/-- The call `m.insert (entry)`: an existing key keeps its value and the call answers
`false` in the second component of the pair it returns. -/
def insert {V : Type} (m : StdMap V) (k : Nat) (v : V) : StdMap V × Bool :=
  match find m k with
  | some _ => (m, false)
  | none => (place k v m, true)

/-- The call `m.erase (it)` for the iterator `it` that `m.find (k)` returned. -/
def erase {V : Type} : StdMap V → Nat → StdMap V
  | [], _ => []
  | (a, b) :: t, k => if a = k then t else (a, b) :: erase t k

/-- The keys of the map, in iteration order. -/
def keys {V : Type} (m : StdMap V) : List Nat := m.map Prod.fst

end StdMap

/-! ## Faults and log lines -/

/-- The ways a call can end without returning. -/
inductive Fault where
  /-- A failed `NS_ASSERT_MSG`. -/
  | assertion (msg : String)
  /-- The macro `NS_FATAL_ERROR`. -/
  | fatal (msg : String)
  /-- Undefined behaviour of C++: a null `Ptr` or an end iterator is dereferenced. -/
  | undefined (what : String)
  deriving DecidableEq, Repr

/-- The `NS_LOG_ERROR` and `NS_LOG_WARN` lines of the file. -/
inductive Log where
  | error (msg : String)
  | warn (msg : String)
  deriving DecidableEq, Repr

/-! ## The global switch registry -/

/-- The static member `m_globalSwitchMap`: datapath id to device pointer. -/
abbrev DpIdDevMap := StdMap Nat

/-- `OFSwitch13NetDevice::RegisterDatapath`. -/
def RegisterDatapath (m : DpIdDevMap) (id dev : Nat) : DpIdDevMap × List Log :=
  let ret := StdMap.insert m id dev
  if ret.2 = false then
    (ret.1, [Log.error "Error inserting datapath device into global map."])
  else
    (ret.1, [])

/-- `OFSwitch13NetDevice::UnregisterDatapath`. -/
def UnregisterDatapath (m : DpIdDevMap) (id : Nat) : DpIdDevMap × List Log :=
  match StdMap.find m id with
  | some _ => (StdMap.erase m id, [])
  | none => (m, [Log.error "Error removing datapath device from global map."])

/-- `OFSwitch13NetDevice::GetDatapathDevice`: the device, or the null pointer with an
error line. -/
def GetDatapathDevice (m : DpIdDevMap) (id : Nat) : Option Nat × List Log :=
  match StdMap.find m id with
  | some dev => (some dev, [])
  | none => (none, [Log.error "Error retrieving datapath device from global map."])

/-! ## Packets, ports and the datapath -/

/-- A tag object of ns-3: the `TypeId` of its class and its serialised value. -/
structure Tag where
  tid : Nat
  value : List Nat
  deriving DecidableEq, Repr

/-- An item of a `ByteTagIterator`: the tag and the byte range it covers. -/
structure ByteTagItem where
  tag : Tag
  start : Nat
  stop : Nat
  deriving DecidableEq, Repr

/-- An `ns3::Packet` object: uid, bytes, packet tags and byte tags, the tags in the order
in which the tag iterators visit them. -/
structure Packet where
  uid : Nat
  data : List Nat
  packetTags : List Tag
  byteTags : List ByteTagItem
  deriving DecidableEq, Repr

/-- The `struct packet` of the pipeline engine, with the fields this file reads or writes;
`buffer` holds the `buffer->size` bytes at `buffer->data`, `table_miss` and `valid` are
the fields of `pkt->handle_std`. -/
structure packet where
  ns3_uid : Nat
  in_port : Nat
  packet_out : Bool
  changes : Bool
  clone : Bool
  buffer : List Nat
  buffer_id : Nat
  table_id : Nat
  table_miss : Bool
  valid : Bool
  deriving DecidableEq, Repr

/-- The `struct sw_port` of the datapath port list: `stats->port_no` and `conf->config`. -/
structure sw_port where
  port_no : Nat
  config : Nat
  deriving DecidableEq, Repr

/-- The `struct datapath`: identifier, port count, port list and the packet buffers of the
engine (buffer identifier to parked packet). -/
structure datapath where
  id : Nat
  ports_num : Nat
  port_list : List sw_port
  buffers : StdMap packet
  deriving DecidableEq, Repr

/-- An `OFSwitch13Port` object: its port number and the CSMA device it drives. -/
structure OFSwitch13Port where
  portNo : Nat
  csmaDev : Nat
  deriving DecidableEq, Repr

/-- The controller socket as this file sees it: `GetTxAvailable ()` and the bytes that
`GetRxAvailable ()` counts and `Recv` takes. -/
structure Socket where
  txAvailable : Nat
  rx : List Nat
  deriving DecidableEq, Repr

/-- The OpenFlow messages built in this file. -/
inductive OflMsg where
  | hello
  | packetIn (total_len reason table_id : Nat) (data : List Nat) (cookie buffer_id
      data_length : Nat)
  | error (type code data_length : Nat) (data : List Nat)
  deriving DecidableEq, Repr

/-- The member functions handed to `Simulator::Schedule`. -/
inductive Scheduled where
  | DatapathTimeout
  | SendToPipeline (packet : Nat) (portNo : Nat)
  | SendToController (packet : Nat)
  deriving DecidableEq, Repr

/-- What a call does outside the device, in program order. -/
inductive Event where
  | log (l : Log)
  /-- The call `port->Send (packet, queueNo)` on the port that `m_portsByNo` holds under
  `portNo`. -/
  | portSend (portNo : Nat) (packet : Nat) (queueNo : Nat)
  /-- The call `pipeline_process_packet (dp->pipeline, pkt)`. -/
  | pipelineProcess (pkt : packet)
  /-- The call `dp_send_message (dp, msg, sender)`. -/
  | dpSendMessage (msg : OflMsg)
  /-- The call `m_ctrlSocket->Send (packet)`. -/
  | socketSend (packet : Nat)
  /-- The call `Simulator::Schedule (delay, f, ...)`. -/
  | schedule (delay : Nat) (f : Scheduled)
  /-- The trace source `m_meterDropTrace` fires. -/
  | meterDrop (packet : Nat)
  /-- The call `ofl_msg_unpack (buffer->data, buffer->size, ...)` on the bytes `raw`. -/
  | msgUnpack (raw : List Nat)
  /-- The call `handle_control_msg (m_datapath, msg, &sender)`. -/
  | handleControlMsg (msg : Nat)
  /-- The call `ofl_msg_free (msg, m_datapath->exp)`. -/
  | msgFree (msg : Nat)
  /-- The call `meter_table_add_tokens (dp->meters)`. -/
  | meterTableAddTokens
  /-- The call `pipeline_timeout (dp->pipeline)`. -/
  | pipelineTimeout
  /-- The call `PortUpdateState ()` on the port that `m_portsByNo` holds under `portNo`. -/
  | portUpdateState (portNo : Nat)
  /-- The call `pipeline_destroy (m_datapath->pipeline)`. -/
  | pipelineDestroy
  /-- The call `group_table_destroy (m_datapath->groups)`. -/
  | groupTableDestroy
  /-- The call `meter_table_destroy (m_datapath->meters)`. -/
  | meterTableDestroy
  deriving DecidableEq, Repr

/-- The members of `OFSwitch13NetDevice` together with what the device acts on: the ns-3
packet objects (`objects`, a `Ptr<Packet>` is an index into it), the counter
`Packet::m_globalUid` and the trace of events. -/
structure SwitchState where
  m_dpId : Nat
  m_timeout : Nat
  m_portsByNo : StdMap OFSwitch13Port
  m_pktPipeline : Option Nat
  m_pktsBuffer : StdMap Nat
  m_ctrlSocket : Option Socket
  m_datapath : datapath
  objects : List Packet
  globalUid : Nat
  trace : List Event
  deriving DecidableEq, Repr

/-- What the collaborators outside the file answer: the port count limit of the engine,
the result of `OFSwitch13Port::Send`, the result of `Socket::Send` and the buffer
identifier the engine picks for a packet it parks. -/
structure Env where
  DP_MAX_PORTS : Nat
  portSend : Nat → Nat → Nat → Bool
  socketSend : Socket → Nat → Int × Socket
  bufferId : datapath → packet → Nat

/-- Appends events to the trace. -/
def SwitchState.emit (s : SwitchState) (es : List Event) : SwitchState :=
  { s with trace := s.trace ++ es }

/-- Modelled from the spec: the pseudo-port `IN_PORT` of the output dispatcher; the
header with `enum ofp_port_no` is not under src/, the value is the one of OpenFlow 1.3. -/
def OFPP_IN_PORT : Nat := 0xfffffff8

/-- Modelled from the spec: the pseudo-port `TABLE` (see `OFPP_IN_PORT`). -/
def OFPP_TABLE : Nat := 0xfffffff9

/-- Modelled from the spec: the pseudo-port `NORMAL` (see `OFPP_IN_PORT`). -/
def OFPP_NORMAL : Nat := 0xfffffffa

/-- Modelled from the spec: the pseudo-port `FLOOD` (see `OFPP_IN_PORT`). -/
def OFPP_FLOOD : Nat := 0xfffffffb

/-- Modelled from the spec: the pseudo-port `ALL` (see `OFPP_IN_PORT`). -/
def OFPP_ALL : Nat := 0xfffffffc

/-- Modelled from the spec: the pseudo-port `CONTROLLER` (see `OFPP_IN_PORT`). -/
def OFPP_CONTROLLER : Nat := 0xfffffffd

/-- Modelled from the spec: the pseudo-port `LOCAL` (see `OFPP_IN_PORT`). -/
def OFPP_LOCAL : Nat := 0xfffffffe

/-- Modelled from the spec: the bit of `conf->config` that marks a port "no-forward"; the
header with `enum ofp_port_config` is not under src/, the value is the one of
OpenFlow 1.3. -/
def OFPPC_NO_FWD : Nat := 32

/-- Modelled from the spec: the packet-in reason "explicit miss" (`enum
ofp_packet_in_reason` is not under src/, the value is the one of OpenFlow 1.3). -/
def OFPR_NO_MATCH : Nat := 0

/-- Modelled from the spec: the packet-in reason "action-directed" (see
`OFPR_NO_MATCH`). -/
def OFPR_ACTION : Nat := 1

/-! ## Packet objects -/

/-- Modelled from the spec: `ofs::PacketFromBuffer` (ofswitch13-interface.cc is not under
src/) "constructs a new packet object from the internal byte buffer": a new object with
the bytes of the buffer, a fresh uid and no tags; the result is its address. -/
def PacketFromBuffer (s : SwitchState) (buffer : List Nat) : SwitchState × Nat :=
  ({ s with objects := s.objects ++ [⟨s.globalUid, buffer, [], []⟩],
            globalUid := s.globalUid + 1 },
   s.objects.length)

/-- `Packet::AddPacketTag` of ns-3: the tag becomes the head of the packet tag list. -/
def Packet.AddPacketTag (p : Packet) (t : Tag) : Packet :=
  { p with packetTags := t :: p.packetTags }

/-- `Packet::AddByteTag (tag)` of ns-3: the tag is appended and covers every byte of the
packet. -/
def Packet.AddByteTag (p : Packet) (t : Tag) : Packet :=
  { p with byteTags := p.byteTags ++ [⟨t, 0, p.data.length⟩] }

/-- The two loops of `OFSwitch13NetDevice::CopyTags` on the packet objects themselves:
every packet tag of `srcPkt`, then the tag of every byte tag item of `srcPkt`, is added
to `dstPkt`. -/
def CopyTagsObj (srcPkt dstPkt : Packet) : Packet :=
  let dst1 := srcPkt.packetTags.foldl (fun d t => d.AddPacketTag t) dstPkt
  srcPkt.byteTags.foldl (fun d item => d.AddByteTag item.tag) dst1

/-- `OFSwitch13NetDevice::CopyTags`, on pointers: the object at `dstPkt` is updated in
place; the function returns `true`. -/
def CopyTags (s : SwitchState) (srcPkt dstPkt : Nat) : Except Fault (SwitchState × Bool) :=
  match s.objects[srcPkt]?, s.objects[dstPkt]? with
  | some src, some dst =>
    .ok ({ s with objects := s.objects.set dstPkt (CopyTagsObj src dst) }, true)
  | _, _ => .error (Fault.undefined "CopyTags on a null Ptr<Packet>")

/-! ## Ports -/

/-- `OFSwitch13NetDevice::GetNSwitchPorts`. -/
def GetNSwitchPorts (s : SwitchState) : Nat := s.m_datapath.ports_num

/-- Modelled from the spec: the constructor of `OFSwitch13Port` (ofswitch13-port.cc is not
under src/), which "allocates a port object bound to the datapath and assigns it the next
available port number": the port count of the datapath grows by one, the new count is the
port number, and the port is appended to the port list of the datapath. -/
def OFSwitch13Port.create (dp : datapath) (csmaDev : Nat) : datapath × OFSwitch13Port :=
  ({ dp with ports_num := dp.ports_num + 1,
             port_list := dp.port_list ++ [⟨dp.ports_num + 1, 0⟩] },
   ⟨dp.ports_num + 1, csmaDev⟩)

/-- A `Ptr<NetDevice>` handed to `AddSwitchPort`: the device and whether
`GetObject<CsmaNetDevice> ()` finds a CSMA device in it. -/
structure NetDevice where
  addr : Nat
  isCsma : Bool
  deriving DecidableEq, Repr

/-- `OFSwitch13NetDevice::AddSwitchPort`: the returned port number, 0 when the call is
rejected. -/
def AddSwitchPort (env : Env) (s : SwitchState) (portDevice : NetDevice) :
    Except Fault (SwitchState × Nat) :=
  if GetNSwitchPorts s ≥ env.DP_MAX_PORTS then
    .ok (s.emit [Event.log (Log.error "No more ports allowed.")], 0)
  else if portDevice.isCsma = false then
    .error (Fault.fatal "NetDevice must be of CsmaNetDevice type.")
  else
    let created := OFSwitch13Port.create s.m_datapath portDevice.addr
    let ofPort := created.2
    let ret := StdMap.insert s.m_portsByNo ofPort.portNo ofPort
    .ok ({ s with m_datapath := created.1, m_portsByNo := ret.1 }, ofPort.portNo)

/-- `OFSwitch13NetDevice::GetOFSwitch13Port`: the port, or the null pointer with an error
line. -/
def GetOFSwitch13Port (s : SwitchState) (no : Nat) : SwitchState × Option OFSwitch13Port :=
  match StdMap.find s.m_portsByNo no with
  | some port => (s, some port)
  | none => (s.emit [Event.log (Log.error "No port found!")], none)

/-- The last line of `SendToSwitchPort`, `return port->Send (packet, queueNo)`, for the
port that `m_portsByNo` holds under `portNo`: the call is recorded and the answer of the
port is returned. -/
def portSendCall (env : Env) (s : SwitchState) (portNo packet queueNo : Nat) :
    SwitchState × Bool :=
  (s.emit [Event.portSend portNo packet queueNo], env.portSend portNo packet queueNo)

/-- `OFSwitch13NetDevice::SendToSwitchPort`. -/
def SendToSwitchPort (env : Env) (s : SwitchState) (pkt : packet) (portNo queueNo : Nat) :
    Except Fault (SwitchState × Bool) :=
  match GetOFSwitch13Port s portNo with
  | (s0, none) => .ok (s0.emit [Event.log (Log.error "can't forward to invalid port.")], false)
  | (s0, some _) =>
    match s0.m_pktPipeline with
    | some orig =>
      match s0.objects[orig]? with
      | none => .error (Fault.undefined "m_pktPipeline->GetUid () on a dangling pointer")
      | some o =>
        if o.uid ≠ pkt.ns3_uid then
          .error (Fault.assertion "Mismatch between pipeline packets.")
        else if pkt.changes then
          let made := PacketFromBuffer s0 pkt.buffer
          match CopyTags made.1 orig made.2 with
          | .error f => .error f
          | .ok r => .ok (portSendCall env r.1 portNo made.2 queueNo)
        else
          .ok (portSendCall env s0 portNo orig queueNo)
    | none =>
      let made := PacketFromBuffer s0 pkt.buffer
      .ok (portSendCall env made.1 portNo made.2 queueNo)

/-! ## The packet lifecycle tracker -/

/-- Modelled from the spec: `packet_create` of the pipeline engine (not under src/) builds
the internal packet for a frame that enters on `portNo`: a packet that is neither a
clone, nor modified, nor a controller injection, and that holds no buffer identifier
(`NO_BUFFER`, all bits set). -/
def packet_create (portNo : Nat) (buffer : List Nat) (packet_out : Bool) : packet :=
  { ns3_uid := 0, in_port := portNo, packet_out := packet_out, changes := false,
    clone := false, buffer := buffer, buffer_id := 0xffffffff, table_id := 0,
    table_miss := false, valid := false }

/-- `OFSwitch13NetDevice::SendToPipeline`: the frame at address `packet` enters the
pipeline. -/
def SendToPipeline (s : SwitchState) (packet portNo : Nat) : Except Fault SwitchState :=
  match s.objects[packet]? with
  | none => .error (Fault.undefined "packet->GetUid () on a null Ptr<Packet>")
  | some o =>
    if s.m_pktPipeline.isSome then
      .error (Fault.assertion "Another packet is already in pipeline.")
    else
      let pkt := { packet_create portNo o.data false with ns3_uid := o.uid }
      .ok ({ s with m_pktPipeline := some packet }.emit [Event.pipelineProcess pkt])

/-- `OFSwitch13NetDevice::NotifyPacketDestroyed`. -/
def NotifyPacketDestroyed (s : SwitchState) (pkt : packet) : Except Fault SwitchState :=
  match s.m_pktPipeline with
  | none => .ok s
  | some orig =>
    match s.objects[orig]? with
    | none => .error (Fault.undefined "m_pktPipeline->GetUid () on a dangling pointer")
    | some o =>
      if o.uid ≠ pkt.ns3_uid then
        .error (Fault.assertion "Mismatch between pipeline packets.")
      else if pkt.clone = false then
        .ok { s with m_pktPipeline := none }
      else
        .ok s

/-- `OFSwitch13NetDevice::NotifyPacketDropped`. -/
def NotifyPacketDropped (s : SwitchState) (pkt : packet) : Except Fault SwitchState :=
  match s.m_pktPipeline with
  | none => .ok s
  | some orig =>
    match s.objects[orig]? with
    | none => .error (Fault.undefined "m_pktPipeline->GetUid () on a dangling pointer")
    | some o =>
      if o.uid ≠ pkt.ns3_uid then
        .error (Fault.assertion "Mismatch between pipeline packets.")
      else
        .ok (s.emit [Event.meterDrop orig])

/-- `OFSwitch13NetDevice::BufferPacketSave`. -/
def BufferPacketSave (s : SwitchState) (packetUid : Nat) : Except Fault SwitchState :=
  match s.m_pktPipeline with
  | none => .error (Fault.undefined "m_pktPipeline->GetUid () on a null Ptr<Packet>")
  | some orig =>
    match s.objects[orig]? with
    | none => .error (Fault.undefined "m_pktPipeline->GetUid () on a dangling pointer")
    | some o =>
      if o.uid ≠ packetUid then
        .error (Fault.assertion "Mismatch between pipeline packets.")
      else
        let ret := StdMap.insert s.m_pktsBuffer packetUid orig
        let s1 := if ret.2 = false then
            s.emit [Event.log (Log.warn "Packet already in switch buffer.")]
          else s
        .ok { s1 with m_pktsBuffer := ret.1, m_pktPipeline := none }

/-- `OFSwitch13NetDevice::BufferPacketRetrieve`. The warning is logged on the branch
`it != m_pktsBuffer.end ()`, and `it->second` and `erase (it)` follow without a test:
with the end iterator they are undefined behaviour. -/
def BufferPacketRetrieve (s : SwitchState) (packetUid : Nat) : Except Fault SwitchState :=
  if s.m_pktPipeline.isSome then
    .error (Fault.assertion "Another packet is already in pipeline.")
  else
    match StdMap.find s.m_pktsBuffer packetUid with
    | some orig =>
      .ok { s.emit [Event.log (Log.warn "Packet not found in switch buffer.")] with
            m_pktPipeline := some orig,
            m_pktsBuffer := StdMap.erase s.m_pktsBuffer packetUid }
    | none => .error (Fault.undefined "it->second with it == m_pktsBuffer.end ()")

/-- `OFSwitch13NetDevice::BufferSaveCallback`, for the device that owns the datapath of
the packet. -/
def BufferSaveCallback (s : SwitchState) (pkt : packet) : Except Fault SwitchState :=
  BufferPacketSave s pkt.ns3_uid

/-- `OFSwitch13NetDevice::BufferRetrieveCallback`, for the device that owns the datapath
of the packet. -/
def BufferRetrieveCallback (s : SwitchState) (pkt : packet) : Except Fault SwitchState :=
  BufferPacketRetrieve s pkt.ns3_uid

/-- Modelled from the spec: `dp_buffers_save` of the pipeline engine (not under src/).
"The full packet is placed into the Buffered set under that buffer identifier": the
engine picks a buffer identifier, writes it to `pkt->buffer_id`, parks the packet under
it, and requests the save from the device through `buff_save_cb`, which `DatapathNew`
sets to `BufferSaveCallback`. -/
def dp_buffers_save (env : Env) (s : SwitchState) (pkt : packet) :
    Except Fault (SwitchState × packet) :=
  let pkt1 := { pkt with buffer_id := env.bufferId s.m_datapath pkt }
  let dp := { s.m_datapath with buffers := (pkt1.buffer_id, pkt1) :: s.m_datapath.buffers }
  match BufferSaveCallback { s with m_datapath := dp } pkt1 with
  | .error f => .error f
  | .ok s1 => .ok (s1, pkt1)

/-! ## The output dispatcher -/

/-- The body of `LIST_FOR_EACH (p, struct sw_port, node, &pkt->dp->port_list)` in the case
`OFPP_FLOOD` / `OFPP_ALL` of `DpActionsOutputPort`, run over the ports `ps`. -/
def DpActionsOutputPort_each (env : Env) (pkt : packet) (outPort : Nat) :
    List sw_port → SwitchState → Except Fault SwitchState
  | [], s => .ok s
  | p :: ps, s =>
    if p.port_no = pkt.in_port ∨ (outPort = OFPP_FLOOD ∧ p.config &&& OFPPC_NO_FWD ≠ 0) then
      DpActionsOutputPort_each env pkt outPort ps s
    else
      match SendToSwitchPort env s pkt p.port_no 0 with
      | .error f => .error f
      | .ok r => DpActionsOutputPort_each env pkt outPort ps r.1

/-- `OFSwitch13NetDevice::DpActionsOutputPort`, for the device `dev` that
`GetDatapathDevice (pkt->dp->id)` finds, which is the device that owns the datapath (the
constructor registers it under `m_dpId`, and `DatapathNew` sets `dp->id = m_dpId`). The
result holds the packet structure as the call leaves it. -/
def DpActionsOutputPort (env : Env) (s : SwitchState) (pkt : packet)
    (outPort outQueue maxLen cookie : Nat) : Except Fault (SwitchState × packet) :=
  if outPort = OFPP_TABLE then
    if pkt.packet_out then
      let pkt1 := { pkt with packet_out := false }
      .ok (s.emit [Event.pipelineProcess pkt1], pkt1)
    else
      .ok (s.emit [Event.log (Log.warn "Trying to resubmit packet to pipeline.")], pkt)
  else if outPort = OFPP_IN_PORT then
    match SendToSwitchPort env s pkt pkt.in_port 0 with
    | .error f => .error f
    | .ok r => .ok (r.1, pkt)
  else if outPort = OFPP_CONTROLLER then
    let total_len := pkt.buffer.length
    let reason := if pkt.table_miss then OFPR_NO_MATCH else OFPR_ACTION
    match dp_buffers_save env s pkt with
    | .error f => .error f
    | .ok (s1, pkt1) =>
      let msg := OflMsg.packetIn total_len reason pkt1.table_id pkt1.buffer cookie
        pkt1.buffer_id (min maxLen pkt1.buffer.length)
      .ok (s1.emit [Event.dpSendMessage msg], { pkt1 with valid := true })
  else if outPort = OFPP_FLOOD ∨ outPort = OFPP_ALL then
    match DpActionsOutputPort_each env pkt outPort s.m_datapath.port_list s with
    | .error f => .error f
    | .ok s1 => .ok (s1, pkt)
  else
    if pkt.in_port = outPort then
      .ok (s.emit [Event.log (Log.warn "Can't directly forward to input port.")], pkt)
    else
      match SendToSwitchPort env s pkt outPort outQueue with
      | .error f => .error f
      | .ok r => .ok (r.1, pkt)

/-! ## The controller channel -/

/-- `OFSwitch13NetDevice::SendToController`: the `int` it returns. The value of
`!m_ctrlSocket->Send (packet)` is 1 when `Send` answers 0 and 0 otherwise. -/
def SendToController (env : Env) (s : SwitchState) (packet : Nat) :
    Except Fault (SwitchState × Int) :=
  match s.m_ctrlSocket with
  | none =>
    .ok (s.emit [Event.log (Log.warn "No controller connection. Discarding message... ")], -1)
  | some sock =>
    match s.objects[packet]? with
    | none => .error (Fault.undefined "packet->GetSize () on a null Ptr<Packet>")
    | some o =>
      let s1 := if sock.txAvailable < o.data.length then
          s.emit [Event.log (Log.error "Unavailable space to send OpenFlow message now."),
                  Event.schedule s.m_timeout (Scheduled.SendToController packet)]
        else s
      let sent := env.socketSend sock o.data.length
      .ok ({ s1.emit [Event.socketSend packet] with m_ctrlSocket := some sent.2 },
           if sent.1 = 0 then 1 else 0)

/-- `OFSwitch13NetDevice::SendOpenflowBufferToRemote`, for the device that owns the
datapath of the remote: the buffer becomes a packet and goes to `SendToController`. -/
def SendOpenflowBufferToRemote (env : Env) (s : SwitchState) (buffer : List Nat) :
    Except Fault (SwitchState × Int) :=
  let made := PacketFromBuffer s buffer
  match SendToController env made.1 made.2 with
  | .error f => .error f
  | .ok r =>
    if r.2 ≠ 0 then
      .ok (r.1.emit [Event.log (Log.warn "There was an error sending the message!")], r.2)
    else
      .ok r

/-- What `ReceiveFromController` keeps between calls and acts on: the bytes the socket
holds for `Recv` (`GetRxAvailable ()` is their number), the function-local statics
`pendingPacket` (the bytes of the packet, `none` for the null pointer) and
`pendingBytes`, and the trace of events. -/
structure CtrlChannel where
  rx : List Nat
  pendingPacket : Option (List Nat)
  pendingBytes : Nat
  trace : List Event
  deriving DecidableEq, Repr

/-- What the collaborators of `ReceiveFromController` answer: whether the sender address
is an `InetSocketAddress`, the error code and the message of `ofl_msg_unpack`, and the
error code of `handle_control_msg`; an error code of 0 is success. -/
structure CtrlEnv where
  fromIsInet : Bool
  ofl_msg_unpack : List Nat → Nat × Nat
  handle_control_msg : Nat → Nat

/-- The size `sizeof (ofp_header)` of the OpenFlow header: version, type, 16-bit length
and 32-bit transaction id. -/
def sizeof_ofp_header : Nat := 8

/-- The value `ntohs (header.length)` for a header copied from the bytes `header`: the
third and fourth byte, most significant first. -/
def ntohs_length (header : List Nat) : Nat :=
  (header.getD 2 0 % 256) * 256 + header.getD 3 0 % 256

/-- The value stored by `pendingBytes = ntohs (header.length) - sizeof (ofp_header)`: the
difference is taken in an unsigned type and kept in a `uint32_t`. -/
def pendingBytesOf (header : List Nat) : Nat :=
  (ntohs_length header + 2 ^ 32 - sizeof_ofp_header) % 2 ^ 32

/-- The macro `ofl_error_type` of the message library: the upper 16 bits. -/
def ofl_error_type (error : Nat) : Nat := (error % 2 ^ 32) / 2 ^ 16

/-- The macro `ofl_error_code` of the message library: the lower 16 bits. -/
def ofl_error_code (error : Nat) : Nat := error % 2 ^ 16

/-- The part of the loop body of `ReceiveFromController` that follows the reads: the
assembled bytes `raw` are unpacked and handled, and an error is notified. -/
def dispatchMessage (env : CtrlEnv) (raw : List Nat) : List Event :=
  if env.fromIsInet then
    let unpacked := env.ofl_msg_unpack raw
    if unpacked.1 = 0 then
      let error := env.handle_control_msg unpacked.2
      if error ≠ 0 then
        [Event.msgUnpack raw, Event.handleControlMsg unpacked.2, Event.msgFree unpacked.2,
         Event.log (Log.error "Error processing OpenFlow message from controller."),
         Event.dpSendMessage
           (OflMsg.error (ofl_error_type error) (ofl_error_code error) raw.length raw)]
      else
        [Event.msgUnpack raw, Event.handleControlMsg unpacked.2]
    else
      [Event.msgUnpack raw,
       Event.log (Log.error "Error processing OpenFlow message from controller."),
       Event.dpSendMessage
         (OflMsg.error (ofl_error_type unpacked.1) (ofl_error_code unpacked.1) raw.length raw)]
  else
    []

/-- One pass through the body of the `do ... while` loop of `ReceiveFromController`. The
boolean is `true` when the body ends in the `return` that waits for more bytes. -/
def ReceiveFromController_body (env : CtrlEnv) (c : CtrlChannel) :
    Except Fault (CtrlChannel × Bool) :=
  let started : Except Fault CtrlChannel :=
    if c.pendingBytes = 0 then
      if c.rx.length < 8 then
        .error (Fault.assertion "At least 8 bytes must be available for read")
      else
        .ok { c with rx := c.rx.drop sizeof_ofp_header,
                     pendingPacket := some (c.rx.take sizeof_ofp_header),
                     pendingBytes := pendingBytesOf (c.rx.take sizeof_ofp_header) }
    else
      .ok c
  match started with
  | .error f => .error f
  | .ok c1 =>
    if c1.pendingBytes ≠ 0 ∧ c1.rx.length < c1.pendingBytes then
      .ok (c1, true)
    else
      match c1.pendingPacket with
      | none => .error (Fault.undefined "pendingPacket used as a null Ptr<Packet>")
      | some pending =>
        let raw := if c1.pendingBytes ≠ 0 then pending ++ c1.rx.take c1.pendingBytes
          else pending
        .ok ({ rx := c1.rx.drop c1.pendingBytes, pendingPacket := none, pendingBytes := 0,
               trace := c1.trace ++ dispatchMessage env raw }, false)

/-- The `do ... while (socket->GetRxAvailable ())` loop of `ReceiveFromController`, with
a bound on the number of passes; `none` when the bound is reached. -/
def ReceiveFromController_loop (env : CtrlEnv) : Nat → CtrlChannel →
    Option (Except Fault CtrlChannel)
  | 0, _ => none
  | fuel + 1, c =>
    match ReceiveFromController_body env c with
    | .error f => some (.error f)
    | .ok (c1, true) => some (.ok c1)
    | .ok (c1, false) =>
      if c1.rx.length ≠ 0 then ReceiveFromController_loop env fuel c1 else some (.ok c1)

/-- `OFSwitch13NetDevice::ReceiveFromController`. Every pass that does not return takes at
least one byte from the socket, so the loop makes at most `rx.length` passes that read
and the bound is never reached (`ReceiveFromController_returns`). -/
def ReceiveFromController (env : CtrlEnv) (c : CtrlChannel) : Option (Except Fault CtrlChannel) :=
  ReceiveFromController_loop env (c.rx.length + 1) c

/-- The transport delivers `chunk` to the socket and wakes the receive callback. -/
def deliver (env : CtrlEnv) (c : CtrlChannel) (chunk : List Nat) :
    Option (Except Fault CtrlChannel) :=
  ReceiveFromController env { c with rx := c.rx ++ chunk }

/-- The transport delivers the reads `chunks` one after the other, each followed by a
receive wake-up; a fault ends the run. -/
def deliverAll (env : CtrlEnv) : CtrlChannel → List (List Nat) → Option (Except Fault CtrlChannel)
  | c, [] => some (.ok c)
  | c, chunk :: rest =>
    match deliver env c chunk with
    | some (.ok c1) => deliverAll env c1 rest
    | other => other

/-- The channel of a fresh connection: nothing received, no pending message. -/
def CtrlChannel.idle : CtrlChannel :=
  { rx := [], pendingPacket := none, pendingBytes := 0, trace := [] }

/-- A sequence of `AddSwitchPort` calls on one switch: the state it leaves and the
returned port numbers, in call order. The run ends at an `NS_FATAL_ERROR`, which ends the
simulation. -/
def AddSwitchPorts (env : Env) : SwitchState → List NetDevice → SwitchState × List Nat
  | s, [] => (s, [])
  | s, d :: ds =>
    match AddSwitchPort env s d with
    | .error _ => (s, [])
    | .ok (s1, no) => ((AddSwitchPorts env s1 ds).1, no :: (AddSwitchPorts env s1 ds).2)

/-! ## Observations and fixtures -/

/-- The transmissions of a trace: port and queue of each `port->Send`, in order. -/
def transmissions (tr : List Event) : List (Nat × Nat) :=
  tr.filterMap fun e =>
    match e with
    | Event.portSend portNo _ queueNo => some (portNo, queueNo)
    | _ => none

/-- The precondition that `SendToSwitchPort` asserts: the packet in the pipeline, if there
is one, is a live object with the uid of `pkt`. -/
def pipelineMatches (s : SwitchState) (pkt : packet) : Bool :=
  match s.m_pktPipeline with
  | none => true
  | some orig =>
    match s.objects[orig]? with
    | some o => o.uid == pkt.ns3_uid
    | none => false

/-- `OFSwitch13NetDevice::DatapathNew`, with the fields of the model: the identifier of
the device, no port and no parked packet. -/
def DatapathNew (m_dpId : Nat) : datapath :=
  { id := m_dpId, ports_num := 0, port_list := [], buffers := [] }

/-- The state the constructor `OFSwitch13NetDevice::OFSwitch13NetDevice ()` leaves, for
the value `m_dpId` that `++m_globalDpId` gives: no port, no packet, no controller socket,
the datapath of `DatapathNew`, and the first maintenance event scheduled. The constructor
runs before the attributes of the object are assigned, so `m_timeout` still holds the
default `Time ()`, which is 0, and `Simulator::Schedule (m_timeout, ...)` of line 92
schedules the first firing with delay 0. (The registration of line 91 acts on the global
map, see `RegisterDatapath`.) -/
def SwitchState.afterConstructor (m_dpId : Nat) : SwitchState :=
  { m_dpId := m_dpId, m_timeout := 0, m_portsByNo := [], m_pktPipeline := none,
    m_pktsBuffer := [], m_ctrlSocket := none,
    m_datapath := DatapathNew m_dpId,
    objects := [], globalUid := 0,
    trace := [Event.schedule 0 Scheduled.DatapathTimeout] }

/-- The state of a created device: the constructor has run and the attribute
`DatapathTimeout` has then been assigned to `m_timeout`. -/
def SwitchState.constructed (m_dpId m_timeout : Nat) : SwitchState :=
  { SwitchState.afterConstructor m_dpId with m_timeout := m_timeout }

/-- A collaborator environment for the examples: 255 ports at most, ports that accept
every frame, a socket that takes a message whole when it fits the send window and
answers -1 otherwise, buffer identifiers counted from 0. -/
def Env.sample : Env :=
  { DP_MAX_PORTS := 255
    portSend := fun _ _ _ => true
    socketSend := fun sock size =>
      if sock.txAvailable < size then (-1, sock)
      else (size, { sock with txAvailable := sock.txAvailable - size })
    bufferId := fun dp _ => dp.buffers.length }

/-- A collaborator environment of the controller channel for the examples: the sender is
an IPv4 endpoint, every message unpacks and is handled without error. -/
def CtrlEnv.sample : CtrlEnv :=
  { fromIsInet := true
    ofl_msg_unpack := fun _ => (0, 1)
    handle_control_msg := fun _ => 0 }

/-! ## Calls on the tracker -/

/-- The calls that move a packet between the states of the lifecycle tracker. -/
inductive TrackerCall where
  /-- `SendToPipeline (packet, portNo)`. -/
  | Enter (packet portNo : Nat)
  /-- `BufferPacketSave (packetUid)`. -/
  | MarkBuffered (packetUid : Nat)
  /-- `BufferPacketRetrieve (packetUid)`. -/
  | Retrieve (packetUid : Nat)
  /-- `NotifyPacketDestroyed (pkt)`. -/
  | NotifyDestroyed (pkt : packet)
  deriving DecidableEq, Repr

/-- One call on the tracker. -/
def TrackerCall.apply (s : SwitchState) : TrackerCall → Except Fault SwitchState
  | .Enter packet portNo => SendToPipeline s packet portNo
  | .MarkBuffered packetUid => BufferPacketSave s packetUid
  | .Retrieve packetUid => BufferPacketRetrieve s packetUid
  | .NotifyDestroyed pkt => NotifyPacketDestroyed s pkt

/-- A sequence of calls on the tracker; the run ends in the fault of the first call whose
precondition does not hold. -/
def trackerRun : SwitchState → List TrackerCall → Except Fault SwitchState
  | s, [] => .ok s
  | s, c :: cs =>
    match c.apply s with
    | .error f => .error f
    | .ok s1 => trackerRun s1 cs

/-- The identity (uid) of the packet in the pipeline, if there is one. -/
def inPipelineUid (s : SwitchState) : Option Nat :=
  match s.m_pktPipeline with
  | none => none
  | some orig =>
    match s.objects[orig]? with
    | some o => some o.uid
    | none => none

/-- The identity of the packet in the pipeline, if any, is not a key of the buffered
map. -/
def pipelineNotBuffered (s : SwitchState) : Bool :=
  match inPipelineUid s with
  | none => true
  | some uid => (StdMap.find s.m_pktsBuffer uid).isNone

/-- The call is not the entry of a packet whose uid is a key of the buffered map. -/
def enterFresh (s : SwitchState) : TrackerCall → Bool
  | .Enter packet _ =>
    match s.objects[packet]? with
    | some o => (StdMap.find s.m_pktsBuffer o.uid).isNone
    | none => true
  | _ => true

/-- Every entry of the run is the entry of a packet whose uid is not a key of the buffered
map at that moment. -/
def entersFresh : SwitchState → List TrackerCall → Bool
  | _, [] => true
  | s, c :: cs =>
    enterFresh s c &&
      match c.apply s with
      | .error _ => true
      | .ok s1 => entersFresh s1 cs

/-! ## Maintenance and teardown -/

/-- The meter table or the pipeline of the engine has been destroyed: the trace records
a call of `meter_table_destroy` or of `pipeline_destroy`. -/
def tablesDestroyed (s : SwitchState) : Bool :=
  decide (Event.meterTableDestroy ∈ s.trace) || decide (Event.pipelineDestroy ∈ s.trace)

/-- `OFSwitch13NetDevice::DatapathTimeout`: the maintenance calls on the engine, the state
refresh of every registered port in the order of `m_portsByNo`, and the next firing,
scheduled `m_timeout` later. Once `DoDispose` has destroyed the meter table and the
pipeline, the first calls, `meter_table_add_tokens (dp->meters)` and `pipeline_timeout
(dp->pipeline)`, use destroyed tables, which is undefined behaviour. (The time stamp
`dp->last_timeout` is not a field of the model.) -/
def DatapathTimeout (s : SwitchState) : Except Fault SwitchState :=
  if tablesDestroyed s then
    .error (Fault.undefined "meter_table_add_tokens on a destroyed meter table")
  else
    .ok (s.emit ([Event.meterTableAddTokens, Event.pipelineTimeout]
      ++ s.m_portsByNo.map (fun e => Event.portUpdateState e.1)
      ++ [Event.schedule s.m_timeout Scheduled.DatapathTimeout]))

/-- The retries of `SendToController` that a trace schedules. -/
def retriesScheduled (tr : List Event) : List Nat :=
  tr.filterMap fun e =>
    match e with
    | Event.schedule _ (Scheduled.SendToController packet) => some packet
    | _ => none

/-! ## The transport and the calls of the dispatch -/

/-- `Send` of the ns-3 TCP socket, the transport of the controller channel
(`StartControllerConnection` creates the socket from `TcpSocketFactory`): a message
larger than the available send window is refused whole, with answer -1 and the socket
as it was; a message that fits is taken whole and uses up that much of the window. -/
def tcpSend (sock : Socket) (size : Nat) : Int × Socket :=
  if sock.txAvailable < size then (-1, sock)
  else (size, { sock with txAvailable := sock.txAvailable - size })

theorem transmissions_append (a b : List Event) :
    transmissions (a ++ b) = transmissions a ++ transmissions b := by
  simp [transmissions, List.filterMap_append]

theorem pipelineMatches_some {s : SwitchState} {pkt : packet} {orig : Nat}
    (h : s.m_pktPipeline = some orig) (hm : pipelineMatches s pkt = true) :
    ∃ o, s.objects[orig]? = some o ∧ o.uid = pkt.ns3_uid := by
  unfold pipelineMatches at hm
  rw [h] at hm
  cases ho : s.objects[orig]? with
  | none => simp [ho] at hm
  | some o => exact ⟨o, rfl, by simpa [ho] using hm⟩

/-- When the port is registered and the asserted precondition holds, `SendToSwitchPort`
returns after one `port->Send` on that port and queue; the port registry, the datapath
and the packet in the pipeline are as before. -/
theorem SendToSwitchPort_ok (env : Env) (s : SwitchState) (pkt : packet) (portNo queueNo : Nat)
    (hreg : (StdMap.find s.m_portsByNo portNo).isSome = true)
    (hpipe : pipelineMatches s pkt = true) :
    ∃ r, SendToSwitchPort env s pkt portNo queueNo = .ok r
      ∧ r.1.m_portsByNo = s.m_portsByNo ∧ r.1.m_datapath = s.m_datapath
      ∧ pipelineMatches r.1 pkt = true
      ∧ transmissions r.1.trace = transmissions s.trace ++ [(portNo, queueNo)] := by
  obtain ⟨port, hport⟩ := Option.isSome_iff_exists.mp hreg
  cases hp : s.m_pktPipeline with
  | none =>
    refine ⟨_, by simp [SendToSwitchPort, GetOFSwitch13Port, hport, hp]; rfl, ?_⟩
    simp [portSendCall, PacketFromBuffer, SwitchState.emit, pipelineMatches, hp,
      transmissions_append, transmissions]
  | some orig =>
    obtain ⟨o, ho, hu⟩ := pipelineMatches_some hp hpipe
    have hlt : orig < s.objects.length := by
      rcases Nat.lt_or_ge orig s.objects.length with h | h
      · exact h
      · rw [List.getElem?_eq_none h] at ho; cases ho
    cases hc : pkt.changes with
    | false =>
      refine ⟨_, by simp [SendToSwitchPort, GetOFSwitch13Port, hport, hp, ho, hu, hc]; rfl, ?_⟩
      simp [portSendCall, SwitchState.emit, pipelineMatches, hp, ho, hu,
        transmissions_append, transmissions]
    | true =>
      have h1 : (s.objects ++ [(⟨s.globalUid, pkt.buffer, [], []⟩ : Packet)])[orig]? = some o := by
        rw [List.getElem?_append_left hlt]; exact ho
      refine ⟨_, by
        simp [SendToSwitchPort, GetOFSwitch13Port, hport, hp, ho, hu, hc, CopyTags,
          PacketFromBuffer, h1]; rfl, ?_⟩
      simp [portSendCall, SwitchState.emit, pipelineMatches, hp, hu,
        transmissions_append, transmissions, List.getElem?_set, Nat.ne_of_gt hlt,
        List.getElem?_append_left hlt, ho]

/-- C4: registering an identifier that is already present is rejected with an error line
and leaves the registry as it was, so the lookup still returns the device registered
first; unregistering an absent identifier is reported with an error line and leaves the
registry, hence every lookup, as it was. -/
theorem C4_registry_rejects (m : DpIdDevMap) (id dev dev0 id2 : Nat)
    (hin : StdMap.find m id = some dev0) (hout : StdMap.find m id2 = none) :
    (RegisterDatapath m id dev
        = (m, [Log.error "Error inserting datapath device into global map."])
      ∧ (GetDatapathDevice (RegisterDatapath m id dev).1 id).1 = some dev0)
    ∧ (UnregisterDatapath m id2
        = (m, [Log.error "Error removing datapath device from global map."])
      ∧ ∀ j, GetDatapathDevice (UnregisterDatapath m id2).1 j = GetDatapathDevice m j) := by
  refine ⟨?_, ?_⟩
  · simp [RegisterDatapath, StdMap.insert, GetDatapathDevice, hin]
  · simp [UnregisterDatapath, hout]

/-- Witness of C4: a registry holding datapath 1, a second registration of 1 and the
removal of the absent datapath 2. -/
theorem C4_registry_rejects_witness :
    (RegisterDatapath [(1, 5)] 1 9
        = ([(1, 5)], [Log.error "Error inserting datapath device into global map."])
      ∧ (GetDatapathDevice (RegisterDatapath [(1, 5)] 1 9).1 1).1 = some 5)
    ∧ (UnregisterDatapath [(1, 5)] 2
        = ([(1, 5)], [Log.error "Error removing datapath device from global map."])
      ∧ ∀ j, GetDatapathDevice (UnregisterDatapath [(1, 5)] 2).1 j
          = GetDatapathDevice [(1, 5)] j) :=
  C4_registry_rejects [(1, 5)] 1 9 5 2 (by decide) (by decide)

/-- The loop over the port list transmits, in list order, on the ports that the test in
its body does not skip. -/
theorem DpActionsOutputPort_each_ok (env : Env) (pkt : packet) (outPort : Nat)
    (ps : List sw_port) (s : SwitchState)
    (hreg : ∀ p ∈ ps, (StdMap.find s.m_portsByNo p.port_no).isSome = true)
    (hpipe : pipelineMatches s pkt = true) :
    ∃ s1, DpActionsOutputPort_each env pkt outPort ps s = .ok s1
      ∧ transmissions s1.trace = transmissions s.trace ++
          (ps.filter fun p => ¬ (p.port_no = pkt.in_port
              ∨ (outPort = OFPP_FLOOD ∧ p.config &&& OFPPC_NO_FWD ≠ 0))).map
            fun p => (p.port_no, 0) := by
  induction ps generalizing s with
  | nil => exact ⟨s, rfl, by simp⟩
  | cons p ps ih =>
    by_cases hskip : p.port_no = pkt.in_port
        ∨ (outPort = OFPP_FLOOD ∧ p.config &&& OFPPC_NO_FWD ≠ 0)
    · obtain ⟨s1, h1, h2⟩ := ih s (fun q hq => hreg q (List.mem_cons_of_mem _ hq)) hpipe
      refine ⟨s1, ?_, ?_⟩
      · rw [DpActionsOutputPort_each, if_pos hskip]; exact h1
      · rw [h2, List.filter_cons_of_neg
          (by simp only [decide_eq_true_eq]; exact not_not.mpr hskip)]
    · obtain ⟨r, hr, hports, -, hpipe1, htx⟩ :=
        SendToSwitchPort_ok env s pkt p.port_no 0 (hreg p (List.mem_cons_self _ _)) hpipe
      obtain ⟨s1, h1, h2⟩ := ih r.1
        (fun q hq => by rw [hports]; exact hreg q (List.mem_cons_of_mem _ hq)) hpipe1
      refine ⟨s1, ?_, ?_⟩
      · rw [DpActionsOutputPort_each, if_neg hskip, hr]; exact h1
      · rw [h2, htx, List.filter_cons_of_pos
          (by simp only [decide_eq_true_eq]; exact hskip)]
        simp

/-- C1: when every port of the datapath port list is held by the port registry and the
asserted precondition of `SendToSwitchPort` holds, `FLOOD` transmits, with queue 0, on
exactly the listed ports whose number differs from the ingress port and whose no-forward
bit is clear, and `ALL` on exactly the listed ports whose number differs from the ingress
port. -/
theorem C1_flood_all_targets (env : Env) (s : SwitchState) (pkt : packet)
    (outQueue maxLen cookie : Nat)
    (hreg : ∀ p ∈ s.m_datapath.port_list, (StdMap.find s.m_portsByNo p.port_no).isSome = true)
    (hpipe : pipelineMatches s pkt = true) :
    (∃ s1, DpActionsOutputPort env s pkt OFPP_FLOOD outQueue maxLen cookie = .ok (s1, pkt)
      ∧ transmissions s1.trace = transmissions s.trace ++
          (s.m_datapath.port_list.filter fun p =>
              p.port_no ≠ pkt.in_port ∧ p.config &&& OFPPC_NO_FWD = 0).map
            fun p => (p.port_no, 0))
    ∧ (∃ s2, DpActionsOutputPort env s pkt OFPP_ALL outQueue maxLen cookie = .ok (s2, pkt)
      ∧ transmissions s2.trace = transmissions s.trace ++
          (s.m_datapath.port_list.filter fun p => p.port_no ≠ pkt.in_port).map
            fun p => (p.port_no, 0)) := by
  constructor
  · obtain ⟨s1, h1, h2⟩ :=
      DpActionsOutputPort_each_ok env pkt OFPP_FLOOD s.m_datapath.port_list s hreg hpipe
    refine ⟨s1, ?_, ?_⟩
    · simp [DpActionsOutputPort, OFPP_FLOOD, OFPP_TABLE, OFPP_IN_PORT, OFPP_CONTROLLER] at h1 ⊢
      rw [h1]
    · rw [h2]
      congr 2
      apply List.filter_congr
      intro p _
      simp [not_or]
  · obtain ⟨s2, h1, h2⟩ :=
      DpActionsOutputPort_each_ok env pkt OFPP_ALL s.m_datapath.port_list s hreg hpipe
    refine ⟨s2, ?_, ?_⟩
    · simp [DpActionsOutputPort, OFPP_ALL, OFPP_FLOOD, OFPP_TABLE, OFPP_IN_PORT,
        OFPP_CONTROLLER] at h1 ⊢
      rw [h1]
    · rw [h2]
      congr 2
      apply List.filter_congr
      intro p _
      simp [OFPP_ALL, OFPP_FLOOD]

/-- The switch of the example of C1: ports 1, 2 and 3 attached, port 3 marked
no-forward. -/
theorem C1_flood_all_targets_witness :
    (∃ s1, DpActionsOutputPort Env.sample
        { SwitchState.constructed 1 100 with
            m_portsByNo := [(1, ⟨1, 11⟩), (2, ⟨2, 12⟩), (3, ⟨3, 13⟩)],
            m_datapath := { id := 1, ports_num := 3,
                            port_list := [⟨1, 0⟩, ⟨2, 0⟩, ⟨3, 32⟩], buffers := [] },
            trace := [] }
        { packet_create 1 [1, 2, 3] false with ns3_uid := 7 } OFPP_FLOOD 0 0 0
          = .ok (s1, { packet_create 1 [1, 2, 3] false with ns3_uid := 7 })
      ∧ transmissions s1.trace = [(2, 0)])
    ∧ (∃ s2, DpActionsOutputPort Env.sample
        { SwitchState.constructed 1 100 with
            m_portsByNo := [(1, ⟨1, 11⟩), (2, ⟨2, 12⟩), (3, ⟨3, 13⟩)],
            m_datapath := { id := 1, ports_num := 3,
                            port_list := [⟨1, 0⟩, ⟨2, 0⟩, ⟨3, 32⟩], buffers := [] },
            trace := [] }
        { packet_create 1 [1, 2, 3] false with ns3_uid := 7 } OFPP_ALL 0 0 0
          = .ok (s2, { packet_create 1 [1, 2, 3] false with ns3_uid := 7 })
      ∧ transmissions s2.trace = [(2, 0), (3, 0)]) :=
  C1_flood_all_targets Env.sample
    { SwitchState.constructed 1 100 with
        m_portsByNo := [(1, ⟨1, 11⟩), (2, ⟨2, 12⟩), (3, ⟨3, 13⟩)],
        m_datapath := { id := 1, ports_num := 3,
                        port_list := [⟨1, 0⟩, ⟨2, 0⟩, ⟨3, 32⟩], buffers := [] },
        trace := [] }
    { packet_create 1 [1, 2, 3] false with ns3_uid := 7 } 0 0 0
    (by decide) (by decide)

/-! ### Copying tags -/

theorem foldl_AddPacketTag (l : List Tag) (dst : Packet) :
    l.foldl (fun d t => d.AddPacketTag t) dst
      = { dst with packetTags := l.reverse ++ dst.packetTags } := by
  induction l generalizing dst with
  | nil => simp
  | cons t l ih =>
    simp only [List.foldl_cons]
    rw [ih]
    simp [Packet.AddPacketTag]

theorem foldl_AddByteTag (l : List ByteTagItem) (dst : Packet) :
    l.foldl (fun d item => d.AddByteTag item.tag) dst
      = { dst with byteTags := dst.byteTags ++ l.map fun i => ⟨i.tag, 0, dst.data.length⟩ } := by
  induction l generalizing dst with
  | nil => simp
  | cons t l ih =>
    simp only [List.foldl_cons]
    rw [ih]
    simp [Packet.AddByteTag]

/-- What `CopyTags` leaves in the destination: its own tags, the packet tags of the source
in front of them in reverse order, and the tag of every byte tag item of the source
behind its byte tags, covering all bytes. -/
theorem CopyTagsObj_eq (src dst : Packet) :
    CopyTagsObj src dst
      = { dst with
          packetTags := src.packetTags.reverse ++ dst.packetTags,
          byteTags := dst.byteTags ++ src.byteTags.map fun i => ⟨i.tag, 0, dst.data.length⟩ } := by
  simp [CopyTagsObj, foldl_AddPacketTag, foldl_AddByteTag]

/-- C6: for the frame in the pipeline and a registered port, `SendToSwitchPort` hands the
port the address of the original packet object, and changes no object, when the pipeline
did not modify the packet; when it did, the port gets the address of a new object (the
address past the existing objects), whose bytes are the internal buffer, whose packet
tags are the packet tags of the original up to order and whose byte tags carry the tags
of the byte tags of the original, in order; the existing objects are unchanged. -/
theorem C6_send_preserves_tags (env : Env) (s : SwitchState) (pkt : packet)
    (portNo queueNo orig : Nat) (o : Packet) (port : OFSwitch13Port)
    (hport : StdMap.find s.m_portsByNo portNo = some port)
    (hpipe : s.m_pktPipeline = some orig) (ho : s.objects[orig]? = some o)
    (hu : o.uid = pkt.ns3_uid) :
    SendToSwitchPort env s { pkt with changes := false } portNo queueNo
        = .ok (s.emit [Event.portSend portNo orig queueNo], env.portSend portNo orig queueNo)
    ∧ ∃ s1 new,
        SendToSwitchPort env s { pkt with changes := true } portNo queueNo
          = .ok (s1, env.portSend portNo s.objects.length queueNo)
        ∧ s1.trace = s.trace ++ [Event.portSend portNo s.objects.length queueNo]
        ∧ orig < s.objects.length
        ∧ s1.objects = s.objects ++ [new]
        ∧ new.data = pkt.buffer
        ∧ new.packetTags.Perm o.packetTags
        ∧ new.byteTags.map ByteTagItem.tag = o.byteTags.map ByteTagItem.tag := by
  have hlt : orig < s.objects.length := by
    rcases Nat.lt_or_ge orig s.objects.length with h | h
    · exact h
    · rw [List.getElem?_eq_none h] at ho; cases ho
  constructor
  · simp [SendToSwitchPort, GetOFSwitch13Port, hport, hpipe, ho, hu, portSendCall]
  · have h1 : (s.objects ++ [(⟨s.globalUid, pkt.buffer, [], []⟩ : Packet)])[orig]? = some o := by
      rw [List.getElem?_append_left hlt]; exact ho
    refine ⟨SwitchState.emit
        { s with objects := s.objects ++ [CopyTagsObj o ⟨s.globalUid, pkt.buffer, [], []⟩],
                 globalUid := s.globalUid + 1 }
        [Event.portSend portNo s.objects.length queueNo],
      CopyTagsObj o ⟨s.globalUid, pkt.buffer, [], []⟩, ?_, ?_, hlt, ?_, ?_, ?_, ?_⟩
    · simp [SendToSwitchPort, GetOFSwitch13Port, hport, hpipe, ho, hu, CopyTags,
        PacketFromBuffer, h1, portSendCall]
    · simp [SwitchState.emit]
    · simp [SwitchState.emit]
    · simp [CopyTagsObj_eq]
    · simp [CopyTagsObj_eq, List.reverse_perm]
    · simp [CopyTagsObj_eq, Function.comp_def]

/-- A frame with one packet tag and one byte tag in the pipeline of a switch with port 2:
the hypotheses of C6 hold. -/
theorem C6_send_preserves_tags_witness :
    SendToSwitchPort Env.sample
        { SwitchState.constructed 1 100 with
            m_portsByNo := [(2, ⟨2, 12⟩)], m_pktPipeline := some 0,
            objects := [⟨7, [1, 2, 3], [⟨1, [9]⟩], [⟨⟨2, [8]⟩, 0, 2⟩]⟩] }
        { { packet_create 1 [4, 5, 6] false with ns3_uid := 7 } with changes := false } 2 0
      = .ok (SwitchState.emit
          { SwitchState.constructed 1 100 with
            m_portsByNo := [(2, ⟨2, 12⟩)], m_pktPipeline := some 0,
            objects := [⟨7, [1, 2, 3], [⟨1, [9]⟩], [⟨⟨2, [8]⟩, 0, 2⟩]⟩] }
          [Event.portSend 2 0 0], true)
    ∧ ∃ s1 new,
        SendToSwitchPort Env.sample
          { SwitchState.constructed 1 100 with
            m_portsByNo := [(2, ⟨2, 12⟩)], m_pktPipeline := some 0,
            objects := [⟨7, [1, 2, 3], [⟨1, [9]⟩], [⟨⟨2, [8]⟩, 0, 2⟩]⟩] }
          { { packet_create 1 [4, 5, 6] false with ns3_uid := 7 } with changes := true } 2 0
          = .ok (s1, true)
        ∧ s1.trace = [Event.schedule 0 Scheduled.DatapathTimeout, Event.portSend 2 1 0]
        ∧ 0 < 1
        ∧ s1.objects = [⟨7, [1, 2, 3], [⟨1, [9]⟩], [⟨⟨2, [8]⟩, 0, 2⟩]⟩] ++ [new]
        ∧ new.data = [4, 5, 6]
        ∧ new.packetTags.Perm [⟨1, [9]⟩]
        ∧ new.byteTags.map ByteTagItem.tag = [⟨2, [8]⟩] :=
  C6_send_preserves_tags Env.sample
    { SwitchState.constructed 1 100 with
        m_portsByNo := [(2, ⟨2, 12⟩)], m_pktPipeline := some 0,
        objects := [⟨7, [1, 2, 3], [⟨1, [9]⟩], [⟨⟨2, [8]⟩, 0, 2⟩]⟩] }
    { packet_create 1 [4, 5, 6] false with ns3_uid := 7 } 2 0 0
    ⟨7, [1, 2, 3], [⟨1, [9]⟩], [⟨⟨2, [8]⟩, 0, 2⟩]⟩ ⟨2, 12⟩ rfl rfl rfl rfl

/-! ### Attaching ports -/

theorem StdMap.length_place {V : Type} (k : Nat) (v : V) (m : StdMap V) :
    (StdMap.place k v m).length = m.length + 1 := by
  induction m with
  | nil => rfl
  | cons e t ih =>
    obtain ⟨a, b⟩ := e
    by_cases h : k < a
    · simp [StdMap.place, h]
    · simp [StdMap.place, h, ih]

theorem StdMap.length_insert_le {V : Type} (m : StdMap V) (k : Nat) (v : V) :
    (StdMap.insert m k v).1.length ≤ m.length + 1 := by
  unfold StdMap.insert
  cases StdMap.find m k with
  | some _ => simp
  | none => simp [StdMap.length_place]

/-- The three outcomes of `AddSwitchPort`: rejected at the limit, fatal for a device that
is not a CSMA device, accepted with the next port number. -/
theorem AddSwitchPort_cases (env : Env) (s : SwitchState) (d : NetDevice) :
    (env.DP_MAX_PORTS ≤ s.m_datapath.ports_num
        ∧ AddSwitchPort env s d
          = .ok (s.emit [Event.log (Log.error "No more ports allowed.")], 0))
    ∨ (∃ f, AddSwitchPort env s d = .error f)
    ∨ (s.m_datapath.ports_num < env.DP_MAX_PORTS
        ∧ ∃ s1, AddSwitchPort env s d = .ok (s1, s.m_datapath.ports_num + 1)
          ∧ s1.m_datapath.ports_num = s.m_datapath.ports_num + 1
          ∧ s1.m_portsByNo.length ≤ s.m_portsByNo.length + 1) := by
  by_cases hfull : env.DP_MAX_PORTS ≤ s.m_datapath.ports_num
  · left
    exact ⟨hfull, by simp [AddSwitchPort, GetNSwitchPorts, hfull]⟩
  · right
    cases hc : d.isCsma with
    | false =>
      left
      exact ⟨_, by simp [AddSwitchPort, GetNSwitchPorts, hfull, hc]; rfl⟩
    | true =>
      right
      refine ⟨Nat.lt_of_not_le hfull, _, by
        simp [AddSwitchPort, GetNSwitchPorts, hfull, hc, OFSwitch13Port.create]; rfl, ?_, ?_⟩
      · simp
      · exact StdMap.length_insert_le _ _ _

/-- The invariant of a run of `AddSwitchPort` calls: the port count stays within the
limit, the registry holds at most as many ports as the count, every returned number is 0
or larger than the count before the run, and the non-zero returns are pairwise
distinct. -/
theorem AddSwitchPorts_inv (env : Env) (devs : List NetDevice) (s : SwitchState)
    (h1 : s.m_datapath.ports_num ≤ env.DP_MAX_PORTS)
    (h2 : s.m_portsByNo.length ≤ s.m_datapath.ports_num) :
    (AddSwitchPorts env s devs).1.m_datapath.ports_num ≤ env.DP_MAX_PORTS
    ∧ (AddSwitchPorts env s devs).1.m_portsByNo.length
        ≤ (AddSwitchPorts env s devs).1.m_datapath.ports_num
    ∧ (∀ n ∈ (AddSwitchPorts env s devs).2, n = 0 ∨ s.m_datapath.ports_num < n)
    ∧ ((AddSwitchPorts env s devs).2.filter (· ≠ 0)).Nodup := by
  induction devs generalizing s with
  | nil => simp [AddSwitchPorts, h1, h2]
  | cons d ds ih =>
    rcases AddSwitchPort_cases env s d with ⟨-, hr⟩ | ⟨f, hr⟩ | ⟨hlt, s1, hr, hn, hl⟩
    · obtain ⟨i1, i2, i3, i4⟩ := ih (s.emit [Event.log (Log.error "No more ports allowed.")])
        h1 h2
      simp only [AddSwitchPorts, hr]
      refine ⟨i1, i2, ?_, ?_⟩
      · intro n hn
        rcases List.mem_cons.mp hn with h | h
        · exact Or.inl h
        · exact i3 n h
      · simpa using i4
    · simp [AddSwitchPorts, hr, h1, h2]
    · obtain ⟨i1, i2, i3, i4⟩ := ih s1 (by omega) (by omega)
      simp only [AddSwitchPorts, hr]
      refine ⟨i1, i2, ?_, ?_⟩
      · intro n hn
        rcases List.mem_cons.mp hn with h | h
        · exact Or.inr (by omega)
        · rcases i3 n h with h0 | hgt
          · exact Or.inl h0
          · exact Or.inr (by omega)
      · rw [List.filter_cons_of_pos (by simp)]
        refine List.nodup_cons.mpr ⟨?_, i4⟩
        intro hmem
        rcases i3 _ (List.mem_of_mem_filter hmem) with h0 | hgt
        · omega
        · omega

/-- C5: for every sequence of `AddSwitchPort` calls on a constructed switch, the port
numbers returned by the accepted calls (the non-zero returns) are pairwise distinct, and
the port registry and the port count of the datapath hold at most `DP_MAX_PORTS` ports;
in every state whose port count has reached `DP_MAX_PORTS`, a call returns 0, logs the
error and changes nothing else, the port registry included. -/
theorem C5_ports_unique_bounded (env : Env) (m_dpId m_timeout : Nat) (devs : List NetDevice) :
    ((AddSwitchPorts env (SwitchState.constructed m_dpId m_timeout) devs).2.filter
        (· ≠ 0)).Nodup
    ∧ (AddSwitchPorts env (SwitchState.constructed m_dpId m_timeout) devs).1.m_portsByNo.length
        ≤ env.DP_MAX_PORTS
    ∧ GetNSwitchPorts (AddSwitchPorts env (SwitchState.constructed m_dpId m_timeout) devs).1
        ≤ env.DP_MAX_PORTS
    ∧ ∀ (s : SwitchState) (d : NetDevice), env.DP_MAX_PORTS ≤ GetNSwitchPorts s →
        AddSwitchPort env s d
          = .ok (s.emit [Event.log (Log.error "No more ports allowed.")], 0) := by
  obtain ⟨i1, i2, -, i4⟩ := AddSwitchPorts_inv env devs (SwitchState.constructed m_dpId m_timeout)
    (Nat.zero_le _) (Nat.le_refl _)
  refine ⟨i4, Nat.le_trans i2 i1, i1, ?_⟩
  intro s d hfull
  simp [AddSwitchPort, hfull]

/-- A switch limited to two ports and three attachments: the statement of C5 at that
run. -/
theorem C5_ports_unique_bounded_witness :
    ((AddSwitchPorts { Env.sample with DP_MAX_PORTS := 2 } (SwitchState.constructed 1 100)
        [⟨11, true⟩, ⟨12, true⟩, ⟨13, true⟩]).2.filter (· ≠ 0)).Nodup
    ∧ (AddSwitchPorts { Env.sample with DP_MAX_PORTS := 2 } (SwitchState.constructed 1 100)
        [⟨11, true⟩, ⟨12, true⟩, ⟨13, true⟩]).1.m_portsByNo.length ≤ 2
    ∧ GetNSwitchPorts (AddSwitchPorts { Env.sample with DP_MAX_PORTS := 2 }
        (SwitchState.constructed 1 100) [⟨11, true⟩, ⟨12, true⟩, ⟨13, true⟩]).1 ≤ 2
    ∧ ∀ (s : SwitchState) (d : NetDevice), 2 ≤ GetNSwitchPorts s →
        AddSwitchPort { Env.sample with DP_MAX_PORTS := 2 } s d
          = .ok (s.emit [Event.log (Log.error "No more ports allowed.")], 0) :=
  C5_ports_unique_bounded { Env.sample with DP_MAX_PORTS := 2 } 1 100
    [⟨11, true⟩, ⟨12, true⟩, ⟨13, true⟩]

/-! ### Buffering for the controller -/

theorem StdMap.find_place_self {V : Type} (k : Nat) (v : V) (m : StdMap V)
    (h : StdMap.find m k = none) : StdMap.find (StdMap.place k v m) k = some v := by
  induction m with
  | nil => simp [StdMap.place, StdMap.find]
  | cons e t ih =>
    obtain ⟨a, b⟩ := e
    by_cases hak : a = k
    · simp [StdMap.find, hak] at h
    · simp only [StdMap.find, hak, if_false] at h
      by_cases hlt : k < a
      · simp [StdMap.place, hlt, StdMap.find]
      · simp [StdMap.place, hlt, StdMap.find, hak, ih h]

theorem StdMap.find_place_other {V : Type} (k j : Nat) (v : V) (m : StdMap V) (hjk : j ≠ k) :
    StdMap.find (StdMap.place k v m) j = StdMap.find m j := by
  induction m with
  | nil => simp [StdMap.place, StdMap.find, Ne.symm hjk]
  | cons e t ih =>
    obtain ⟨a, b⟩ := e
    by_cases hlt : k < a
    · simp [StdMap.place, hlt, StdMap.find, Ne.symm hjk]
    · simp [StdMap.place, hlt, StdMap.find, ih]

theorem StdMap.find_insert_self {V : Type} (m : StdMap V) (k : Nat) (v : V) :
    (StdMap.find (StdMap.insert m k v).1 k).isSome = true := by
  unfold StdMap.insert
  cases h : StdMap.find m k with
  | some b => simp [h]
  | none => simp [StdMap.find_place_self k v m h]

theorem StdMap.find_insert_of_isSome {V : Type} (m : StdMap V) (k j : Nat) (v : V)
    (hj : (StdMap.find m j).isSome = true) :
    (StdMap.find (StdMap.insert m k v).1 j).isSome = true := by
  unfold StdMap.insert
  cases h : StdMap.find m k with
  | some b => simpa using hj
  | none =>
    have hjk : j ≠ k := by
      intro e
      subst e
      simp [h] at hj
    simpa [StdMap.find_place_other k j v m hjk] using hj

/-- The hypothesis of C1 on the registry is an invariant of attaching ports: after every
sequence of `AddSwitchPort` calls on a constructed switch, every port of the datapath
port list is held by the port registry under its number. -/
theorem AddSwitchPorts_registered (env : Env) (devs : List NetDevice) (s : SwitchState)
    (hinv : ∀ p ∈ s.m_datapath.port_list,
      (StdMap.find s.m_portsByNo p.port_no).isSome = true) :
    ∀ p ∈ (AddSwitchPorts env s devs).1.m_datapath.port_list,
      (StdMap.find (AddSwitchPorts env s devs).1.m_portsByNo p.port_no).isSome = true := by
  induction devs generalizing s with
  | nil => simpa [AddSwitchPorts] using hinv
  | cons d ds ih =>
    by_cases hfull : env.DP_MAX_PORTS ≤ s.m_datapath.ports_num
    · have hr : AddSwitchPort env s d
          = .ok (s.emit [Event.log (Log.error "No more ports allowed.")], 0) := by
        simp [AddSwitchPort, GetNSwitchPorts, hfull]
      simp only [AddSwitchPorts, hr]
      exact ih _ hinv
    · cases hc : d.isCsma with
      | false =>
        have hr : AddSwitchPort env s d
            = .error (Fault.fatal "NetDevice must be of CsmaNetDevice type.") := by
          simp [AddSwitchPort, GetNSwitchPorts, hfull, hc]
        simp only [AddSwitchPorts, hr]
        exact hinv
      | true =>
        have hr : AddSwitchPort env s d
            = .ok ({ s with
                m_datapath := (OFSwitch13Port.create s.m_datapath d.addr).1,
                m_portsByNo := (StdMap.insert s.m_portsByNo (s.m_datapath.ports_num + 1)
                  ⟨s.m_datapath.ports_num + 1, d.addr⟩).1 },
              s.m_datapath.ports_num + 1) := by
          simp [AddSwitchPort, GetNSwitchPorts, hfull, hc, OFSwitch13Port.create]
        simp only [AddSwitchPorts, hr]
        apply ih
        intro p hp
        simp only [OFSwitch13Port.create, List.mem_append, List.mem_singleton] at hp
        rcases hp with hp | hp
        · exact StdMap.find_insert_of_isSome _ _ _ _ (hinv p hp)
        · subst hp
          exact StdMap.find_insert_self _ _ _

/-- C7 as amended: for the packet in the pipeline whose uid is not yet a key of the
buffered map, and every `maxLen`, the `CONTROLLER` action first has the engine park the
packet, which moves the ns-3 packet from the pipeline into the buffered map under its
uid and keeps the whole internal packet under the buffer identifier, and then sends the
packet-in notification from that state; the notification carries that buffer identifier,
the full length as `total_len` and `min (maxLen, size)` as `data_length`. -/
theorem C7_controller_buffers_full_packet (env : Env) (s : SwitchState) (pkt : packet)
    (outQueue maxLen cookie orig : Nat) (o : Packet)
    (hpipe : s.m_pktPipeline = some orig) (ho : s.objects[orig]? = some o)
    (hu : o.uid = pkt.ns3_uid) (hfresh : StdMap.find s.m_pktsBuffer pkt.ns3_uid = none) :
    ∃ s1 pkt1,
      dp_buffers_save env s pkt = .ok (s1, pkt1)
      ∧ StdMap.find s1.m_pktsBuffer pkt.ns3_uid = some orig
      ∧ s1.objects = s.objects ∧ s1.m_pktPipeline = none ∧ s1.trace = s.trace
      ∧ StdMap.find s1.m_datapath.buffers pkt1.buffer_id = some pkt1
      ∧ pkt1 = { pkt with buffer_id := env.bufferId s.m_datapath pkt }
      ∧ DpActionsOutputPort env s pkt OFPP_CONTROLLER outQueue maxLen cookie
        = .ok (s1.emit [Event.dpSendMessage
                (OflMsg.packetIn pkt.buffer.length
                  (if pkt.table_miss then OFPR_NO_MATCH else OFPR_ACTION) pkt.table_id
                  pkt.buffer cookie pkt1.buffer_id (min maxLen pkt.buffer.length))],
               { pkt1 with valid := true }) := by
  have hsave : dp_buffers_save env s pkt
      = .ok ({ s with
                m_datapath := { s.m_datapath with
                  buffers := (env.bufferId s.m_datapath pkt,
                      { pkt with buffer_id := env.bufferId s.m_datapath pkt })
                    :: s.m_datapath.buffers },
                m_pktsBuffer := StdMap.place pkt.ns3_uid orig s.m_pktsBuffer,
                m_pktPipeline := none },
             { pkt with buffer_id := env.bufferId s.m_datapath pkt }) := by
    simp [dp_buffers_save, BufferSaveCallback, BufferPacketSave, hpipe, ho, hu,
      StdMap.insert, hfresh]
  refine ⟨_, _, hsave, ?_, rfl, rfl, rfl, ?_, rfl, ?_⟩
  · exact StdMap.find_place_self _ _ _ hfresh
  · simp [StdMap.find]
  · simp [DpActionsOutputPort, OFPP_CONTROLLER, OFPP_TABLE, OFPP_IN_PORT, hsave]

/-- A four-byte frame with uid 7 in the pipeline, an empty buffered map and `maxLen` 2:
the hypotheses of C7 hold. -/
theorem C7_controller_buffers_full_packet_witness :
    ∃ s1 pkt1,
      dp_buffers_save Env.sample
          { SwitchState.constructed 1 100 with
              m_pktPipeline := some 0, objects := [⟨7, [1, 2, 3, 4], [], []⟩] }
          { packet_create 1 [1, 2, 3, 4] false with ns3_uid := 7 } = .ok (s1, pkt1)
      ∧ StdMap.find s1.m_pktsBuffer 7 = some 0
      ∧ s1.objects = [⟨7, [1, 2, 3, 4], [], []⟩] ∧ s1.m_pktPipeline = none
      ∧ s1.trace = [Event.schedule 0 Scheduled.DatapathTimeout]
      ∧ StdMap.find s1.m_datapath.buffers pkt1.buffer_id = some pkt1
      ∧ pkt1 = { { packet_create 1 [1, 2, 3, 4] false with ns3_uid := 7 } with buffer_id := 0 }
      ∧ DpActionsOutputPort Env.sample
          { SwitchState.constructed 1 100 with
              m_pktPipeline := some 0, objects := [⟨7, [1, 2, 3, 4], [], []⟩] }
          { packet_create 1 [1, 2, 3, 4] false with ns3_uid := 7 } OFPP_CONTROLLER 0 2 0
        = .ok (s1.emit [Event.dpSendMessage
                (OflMsg.packetIn 4 OFPR_ACTION 0 [1, 2, 3, 4] 0 pkt1.buffer_id 2)],
               { pkt1 with valid := true }) :=
  C7_controller_buffers_full_packet Env.sample
    { SwitchState.constructed 1 100 with
        m_pktPipeline := some 0, objects := [⟨7, [1, 2, 3, 4], [], []⟩] }
    { packet_create 1 [1, 2, 3, 4] false with ns3_uid := 7 } 0 2 0 0
    ⟨7, [1, 2, 3, 4], [], []⟩ rfl rfl rfl rfl

/-- C7 fails as stated. With uid 7 already buffered (object 0, payload `[9]`), the
`CONTROLLER` action on the packet in the pipeline (object 1, uid 7, payload
`[1, 2, 3, 4]`) leaves object 0 under uid 7 and drops object 1 from the pipeline, so the
packet of the notification is not in the buffered map; and for a packet that is not in
the pipeline (a controller injection) the save dereferences the null `m_pktPipeline`. -/
theorem C7_counterexample :
    (DpActionsOutputPort Env.sample
        { SwitchState.constructed 1 100 with
            m_pktPipeline := some 1, m_pktsBuffer := [(7, 0)],
            objects := [⟨7, [9], [], []⟩, ⟨7, [1, 2, 3, 4], [], []⟩], trace := [] }
        { packet_create 1 [1, 2, 3, 4] false with ns3_uid := 7 } OFPP_CONTROLLER 0 2 0).map
        (fun r => (r.1.m_pktsBuffer, r.1.m_pktPipeline, r.1.trace))
      = .ok ([(7, 0)], none,
          [Event.log (Log.warn "Packet already in switch buffer."),
           Event.dpSendMessage (OflMsg.packetIn 4 OFPR_ACTION 0 [1, 2, 3, 4] 0 0 2)])
    ∧ DpActionsOutputPort Env.sample
        { SwitchState.constructed 1 100 with trace := [] }
        (packet_create 1 [1, 2, 3, 4] true) OFPP_CONTROLLER 0 2 0
      = .error (Fault.undefined "m_pktPipeline->GetUid () on a null Ptr<Packet>") := by
  constructor <;> rfl

/-! ### Framing of the controller channel -/

theorem ntohs_length_lt (h : List Nat) : ntohs_length h < 65536 := by
  unfold ntohs_length
  omega

theorem ntohs_length_take (msg : List Nat) : ntohs_length (msg.take 8) = ntohs_length msg := by
  have h2 : (msg.take 8)[2]? = msg[2]? := List.getElem?_take_of_lt (by decide)
  have h3 : (msg.take 8)[3]? = msg[3]? := List.getElem?_take_of_lt (by decide)
  simp [ntohs_length, h2, h3]

theorem pendingBytesOf_eq (h : List Nat) (hl : 8 ≤ ntohs_length h) :
    pendingBytesOf h = ntohs_length h - 8 := by
  have := ntohs_length_lt h
  unfold pendingBytesOf sizeof_ofp_header
  omega

/-- With a message pending and fewer bytes in the socket than it still needs, the call
returns and changes nothing. -/
theorem ReceiveFromController_wait (env : CtrlEnv) (rx h : List Nat) (n : Nat) (t : List Event)
    (hn : n ≠ 0) (hlt : rx.length < n) :
    ReceiveFromController env ⟨rx, some h, n, t⟩ = some (.ok ⟨rx, some h, n, t⟩) := by
  simp [ReceiveFromController, ReceiveFromController_loop, ReceiveFromController_body, hn, hlt]

/-- With a message pending and exactly the bytes it still needs in the socket, the call
completes the message, dispatches it and leaves the channel idle. -/
theorem ReceiveFromController_finish (env : CtrlEnv) (rx h : List Nat) (n : Nat) (t : List Event)
    (hn : n ≠ 0) (hlen : rx.length = n) :
    ReceiveFromController env ⟨rx, some h, n, t⟩
      = some (.ok ⟨[], none, 0, t ++ dispatchMessage env (h ++ rx)⟩) := by
  subst hlen
  simp [ReceiveFromController, ReceiveFromController_loop, ReceiveFromController_body, hn]

/-- With an idle channel and the first bytes of a message in the socket, at least the
header but not the whole message, the call reads the header and returns to wait for the
rest. -/
theorem ReceiveFromController_header (env : CtrlEnv) (rx : List Nat) (t : List Event)
    (h8 : 8 ≤ rx.length) (hdecl : rx.length < ntohs_length rx) :
    ReceiveFromController env ⟨rx, none, 0, t⟩
      = some (.ok ⟨rx.drop 8, some (rx.take 8), ntohs_length rx - 8, t⟩) := by
  have hp : pendingBytesOf (rx.take 8) = ntohs_length rx - 8 := by
    rw [pendingBytesOf_eq _ (by rw [ntohs_length_take]; omega), ntohs_length_take]
  have h1 : ¬ rx.length < 8 := by omega
  have h2 : ntohs_length rx - 8 ≠ 0 := by omega
  have h3 : rx.length - 8 < ntohs_length rx - 8 := by omega
  simp [ReceiveFromController, ReceiveFromController_loop, ReceiveFromController_body, h1, hp,
    sizeof_ofp_header, h2, h3]

/-- With an idle channel and exactly one whole message in the socket, the call dispatches
the message and leaves the channel idle. -/
theorem ReceiveFromController_whole (env : CtrlEnv) (rx : List Nat) (t : List Event)
    (h8 : 8 ≤ rx.length) (hdecl : ntohs_length rx = rx.length) :
    ReceiveFromController env ⟨rx, none, 0, t⟩
      = some (.ok ⟨[], none, 0, t ++ dispatchMessage env rx⟩) := by
  have hp : pendingBytesOf (rx.take 8) = rx.length - 8 := by
    rw [pendingBytesOf_eq _ (by rw [ntohs_length_take]; omega), ntohs_length_take, hdecl]
  have h1 : ¬ rx.length < 8 := by omega
  by_cases h0 : rx.length - 8 = 0
  · have h9 : rx.length ≤ 8 := by omega
    have hp0 : pendingBytesOf rx = 0 := by
      rw [List.take_of_length_le h9] at hp
      omega
    simp [ReceiveFromController, ReceiveFromController_loop, ReceiveFromController_body, h1,
      sizeof_ofp_header, List.take_of_length_le h9, List.drop_of_length_le h9, hp0]
  · have h5 : 8 + (rx.length - 8) = rx.length := by omega
    have h6 : List.take (rx.length - 8) (List.drop 8 rx) = List.drop 8 rx :=
      List.take_of_length_le (by simp)
    simp [ReceiveFromController, ReceiveFromController_loop, ReceiveFromController_body, h1, hp,
      sizeof_ofp_header, h0, h5, h6]

/-- A pass through the loop body that reaches its end has taken at least one byte from
the socket. -/
theorem ReceiveFromController_body_progress (env : CtrlEnv) (c c1 : CtrlChannel)
    (h : ReceiveFromController_body env c = .ok (c1, false)) : c1.rx.length < c.rx.length := by
  unfold ReceiveFromController_body at h
  by_cases hp : c.pendingBytes = 0
  · by_cases h8 : c.rx.length < 8
    · simp [hp, h8] at h
    · simp only [hp, h8, if_true, if_false] at h
      split at h
      · cases h
      · injection h with h
        injection h with h _
        subst h
        simp only [List.length_drop, sizeof_ofp_header]
        omega
  · simp only [hp, if_false] at h
    split at h
    · cases h
    · rename_i hw
      split at h
      · cases h
      · injection h with h
        injection h with h _
        subst h
        have : c.pendingBytes ≤ c.rx.length := by
          by_contra hlt
          exact hw ⟨hp, Nat.lt_of_not_le hlt⟩
        simp only [List.length_drop]
        omega

theorem ReceiveFromController_loop_returns (env : CtrlEnv) (fuel : Nat) (c : CtrlChannel)
    (h : c.rx.length < fuel) : ReceiveFromController_loop env fuel c ≠ none := by
  induction fuel generalizing c with
  | zero => omega
  | succ fuel ih =>
    unfold ReceiveFromController_loop
    cases hb : ReceiveFromController_body env c with
    | error f => simp
    | ok r =>
      obtain ⟨c1, b⟩ := r
      cases b with
      | true => simp
      | false =>
        have hprog := ReceiveFromController_body_progress env c c1 hb
        by_cases h0 : c1.rx.length ≠ 0
        · show (if c1.rx.length ≠ 0 then ReceiveFromController_loop env fuel c1
              else some (Except.ok c1)) ≠ none
          rw [if_pos h0]
          exact ih c1 (by omega)
        · show (if c1.rx.length ≠ 0 then ReceiveFromController_loop env fuel c1
              else some (Except.ok c1)) ≠ none
          rw [if_neg h0]
          simp

/-- The loop of `ReceiveFromController` ends within its bound of passes, in every state
of the channel. -/
theorem ReceiveFromController_returns (env : CtrlEnv) (c : CtrlChannel) :
    ReceiveFromController env c ≠ none :=
  ReceiveFromController_loop_returns env _ c (Nat.lt_succ_self _)

/-- With a message pending, reads that together bring exactly the bytes it still needs
complete it, whatever their sizes: the channel waits at every read but the last and
dispatches the whole message at the last. -/
theorem deliverAll_pending (env : CtrlEnv) (rest : List (List Nat)) (rx h : List Nat) (n : Nat)
    (t : List Event) (hn : n ≠ 0) (hlt : rx.length < n)
    (htot : rx.length + rest.flatten.length = n) (hne : ∀ ch ∈ rest, ch ≠ []) :
    deliverAll env ⟨rx, some h, n, t⟩ rest
      = some (.ok ⟨[], none, 0, t ++ dispatchMessage env (h ++ (rx ++ rest.flatten))⟩) := by
  induction rest generalizing rx with
  | nil =>
    simp at htot
    omega
  | cons ch rest ih =>
    have hne1 : ∀ c ∈ rest, c ≠ [] := fun c hc => hne c (List.mem_cons_of_mem _ hc)
    simp only [List.flatten_cons, List.length_append] at htot
    by_cases hdone : (rx ++ ch).length = n
    · have hrest : rest = [] := by
        cases rest with
        | nil => rfl
        | cons c cs =>
          have hc : c ≠ [] := hne1 c (List.mem_cons_self _ _)
          have hpos : 0 < c.length := List.length_pos.mpr hc
          simp only [List.flatten_cons, List.length_append] at htot hdone
          omega
      subst hrest
      simp only [deliverAll, deliver]
      rw [ReceiveFromController_finish env (rx ++ ch) h n t hn hdone]
      simp
    · have hlt1 : (rx ++ ch).length < n := by
        simp only [List.length_append] at hdone ⊢
        omega
      have hrec := ih (rx ++ ch) hlt1 (by simp only [List.length_append]; omega) hne1
      simp only [deliverAll, deliver]
      rw [ReceiveFromController_wait env (rx ++ ch) h n t hn hlt1]
      simp [hrec]

/-- C2 as amended: for a valid message (at least the 8 header bytes, declared length
equal to its size) and every split of its bytes into non-empty reads the first of which
holds at least the header, each read followed by a wake-up, the channel ends idle with
exactly the events of one dispatch of the whole message, the same as for one read of the
whole message. -/
theorem C2_framing_header_in_first_read (env : CtrlEnv) (msg : List Nat)
    (chunks : List (List Nat)) (h8 : 8 ≤ msg.length) (hdecl : ntohs_length msg = msg.length)
    (hjoin : chunks.flatten = msg) (hne : ∀ ch ∈ chunks, ch ≠ [])
    (hfirst : 8 ≤ (chunks.headD []).length) :
    deliverAll env CtrlChannel.idle chunks = deliverAll env CtrlChannel.idle [msg]
    ∧ deliverAll env CtrlChannel.idle [msg]
      = some (.ok { CtrlChannel.idle with trace := dispatchMessage env msg }) := by
  have hone : deliverAll env CtrlChannel.idle [msg]
      = some (.ok { CtrlChannel.idle with trace := dispatchMessage env msg }) := by
    simp only [deliverAll, deliver, CtrlChannel.idle, List.nil_append]
    rw [ReceiveFromController_whole env msg [] h8 hdecl]
    simp
  refine ⟨?_, hone⟩
  rw [hone]
  cases chunks with
  | nil =>
    simp at hjoin
    subst hjoin
    simp at h8
  | cons c1 rest =>
    simp only [List.headD_cons] at hfirst
    cases rest with
    | nil =>
      simp at hjoin
      subst hjoin
      exact hone
    | cons c2 rest1 =>
      have hne1 : ∀ c ∈ c2 :: rest1, c ≠ [] := fun c hc => hne c (List.mem_cons_of_mem _ hc)
      have hpos : 0 < c2.length := List.length_pos.mpr (hne1 c2 (List.mem_cons_self _ _))
      have hmsg : msg = c1 ++ (c2 :: rest1).flatten := by
        rw [← hjoin, List.flatten_cons]
      have hlen : msg.length = c1.length + (c2 :: rest1).flatten.length := by
        rw [hmsg, List.length_append]
      have hfl : (c2 :: rest1).flatten.length = c2.length + rest1.flatten.length := by
        simp only [List.flatten_cons, List.length_append]
      have htake : c1.take 8 = msg.take 8 := by
        rw [hmsg, List.take_append_of_le_length hfirst]
      have hnt : ntohs_length c1 = ntohs_length msg := by
        rw [← ntohs_length_take c1, htake, ntohs_length_take]
      have hd8 : (c1.drop 8).length = c1.length - 8 := List.length_drop 8 c1
      simp only [deliverAll, deliver, CtrlChannel.idle, List.nil_append]
      rw [ReceiveFromController_header env c1 [] hfirst (by omega)]
      simp only []
      have hrec := deliverAll_pending env (c2 :: rest1) (c1.drop 8) (c1.take 8)
        (ntohs_length c1 - 8) [] (by omega) (by omega) (by omega) hne1
      have hall : c1.take 8 ++ (c1.drop 8 ++ (c2 :: rest1).flatten) = msg := by
        rw [← List.append_assoc, List.take_append_drop, ← hmsg]
      rw [hall] at hrec
      simpa [deliverAll, deliver] using hrec

/-- A 16-byte message read as 9, 2 and 5 bytes: the hypotheses of C2 as amended hold. -/
theorem C2_framing_header_in_first_read_witness :
    deliverAll CtrlEnv.sample CtrlChannel.idle
        [[4, 0, 0, 16, 0, 0, 0, 1, 1], [2, 3], [4, 5, 6, 7, 8]]
      = deliverAll CtrlEnv.sample CtrlChannel.idle
        [[4, 0, 0, 16, 0, 0, 0, 1, 1, 2, 3, 4, 5, 6, 7, 8]]
    ∧ deliverAll CtrlEnv.sample CtrlChannel.idle
        [[4, 0, 0, 16, 0, 0, 0, 1, 1, 2, 3, 4, 5, 6, 7, 8]]
      = some (.ok { CtrlChannel.idle with
          trace := dispatchMessage CtrlEnv.sample
            [4, 0, 0, 16, 0, 0, 0, 1, 1, 2, 3, 4, 5, 6, 7, 8] }) :=
  C2_framing_header_in_first_read CtrlEnv.sample
    [4, 0, 0, 16, 0, 0, 0, 1, 1, 2, 3, 4, 5, 6, 7, 8]
    [[4, 0, 0, 16, 0, 0, 0, 1, 1], [2, 3], [4, 5, 6, 7, 8]]
    (by decide) (by decide) rfl (by decide) (by decide)

/-- C2 fails as stated: the 16-byte message read as 3, 5 and 8 bytes ends at the first
wake-up in the failed assertion that 8 bytes are available, and nothing is decoded, while
one read of 16 bytes unpacks and handles the message. -/
theorem C2_counterexample :
    deliverAll CtrlEnv.sample CtrlChannel.idle
        [[4, 0, 0], [16, 0, 0, 0, 1], [1, 2, 3, 4, 5, 6, 7, 8]]
      = some (.error (Fault.assertion "At least 8 bytes must be available for read"))
    ∧ deliverAll CtrlEnv.sample CtrlChannel.idle
        [[4, 0, 0, 16, 0, 0, 0, 1, 1, 2, 3, 4, 5, 6, 7, 8]]
      = some (.ok { CtrlChannel.idle with
          trace := [Event.msgUnpack [4, 0, 0, 16, 0, 0, 0, 1, 1, 2, 3, 4, 5, 6, 7, 8],
                    Event.handleControlMsg 1] }) := by
  constructor <;> rfl

/-- C8: a `TABLE` action resubmits the packet exactly when `packet_out` is set, with the
mark already cleared in the packet handed to the pipeline; otherwise it only logs a
warning (no resubmission, no transmission). In both cases the packet leaves the call with
the mark clear, and a `TABLE` action on such a packet only logs the warning, in every
state: a packet is resubmitted at most once. -/
theorem C8_table_resubmits_once (env : Env) (s s2 : SwitchState) (pkt : packet)
    (outQueue maxLen cookie outQueue2 maxLen2 cookie2 : Nat) :
    DpActionsOutputPort env s pkt OFPP_TABLE outQueue maxLen cookie
      = .ok (s.emit [if pkt.packet_out then Event.pipelineProcess { pkt with packet_out := false }
                     else Event.log (Log.warn "Trying to resubmit packet to pipeline.")],
             { pkt with packet_out := false })
    ∧ DpActionsOutputPort env s2 { pkt with packet_out := false } OFPP_TABLE
          outQueue2 maxLen2 cookie2
      = .ok (s2.emit [Event.log (Log.warn "Trying to resubmit packet to pipeline.")],
             { pkt with packet_out := false }) := by
  constructor
  · cases h : pkt.packet_out with
    | true => simp [DpActionsOutputPort, h]
    | false =>
      have hp : { pkt with packet_out := false } = pkt := by
        cases pkt; simp_all
      simp [DpActionsOutputPort, h, hp]
  · simp [DpActionsOutputPort]

/-- C9: at a connected channel over the TCP transport, when the message is larger than
the available send window, `SendToController` writes nothing: the `Send` it reaches is
refused whole (answer -1, socket unchanged), and the call leaves the device as it was
but for the error line and one retry of the send, scheduled `m_timeout` later. Without a
connection the call returns -1 and does nothing but log a warning. -/
theorem C9_send_deferred (env : Env) (s : SwitchState) (packet : Nat) (sock : Socket)
    (o : Packet) (htcp : env.socketSend = tcpSend) (hsock : s.m_ctrlSocket = some sock)
    (ho : s.objects[packet]? = some o) (hw : sock.txAvailable < o.data.length) :
    env.socketSend sock o.data.length = (-1, sock)
    ∧ SendToController env s packet
      = .ok (s.emit [Event.log (Log.error "Unavailable space to send OpenFlow message now."),
                     Event.schedule s.m_timeout (Scheduled.SendToController packet),
                     Event.socketSend packet], 0)
    ∧ SendToController env { s with m_ctrlSocket := none } packet
      = .ok (SwitchState.emit { s with m_ctrlSocket := none }
          [Event.log (Log.warn "No controller connection. Discarding message... ")], -1) := by
  have hsend : env.socketSend sock o.data.length = (-1, sock) := by
    rw [htcp]
    simp [tcpSend, hw]
  refine ⟨hsend, ?_, ?_⟩
  · cases s
    simp only at hsock ho
    subst hsock
    simp [SendToController, ho, hw, hsend, SwitchState.emit]
  · simp [SendToController]

/-- A send window of 4 bytes and a message of 16 bytes on the TCP transport: the
hypotheses of C9 hold. -/
theorem C9_send_deferred_witness :
    Env.sample.socketSend { txAvailable := 4, rx := [] } 16 = (-1, { txAvailable := 4, rx := [] })
    ∧ SendToController Env.sample
        { SwitchState.constructed 1 100 with
            m_ctrlSocket := some { txAvailable := 4, rx := [] },
            objects := [⟨7, List.replicate 16 0, [], []⟩], trace := [] } 0
      = .ok ({ SwitchState.constructed 1 100 with
            m_ctrlSocket := some { txAvailable := 4, rx := [] },
            objects := [⟨7, List.replicate 16 0, [], []⟩],
            trace := [Event.log (Log.error "Unavailable space to send OpenFlow message now."),
                      Event.schedule 100 (Scheduled.SendToController 0),
                      Event.socketSend 0] }, 0)
    ∧ SendToController Env.sample
        { SwitchState.constructed 1 100 with
            objects := [⟨7, List.replicate 16 0, [], []⟩], trace := [] } 0
      = .ok ({ SwitchState.constructed 1 100 with
            objects := [⟨7, List.replicate 16 0, [], []⟩],
            trace := [Event.log (Log.warn "No controller connection. Discarding message... ")] },
          -1) :=
  C9_send_deferred Env.sample
    { SwitchState.constructed 1 100 with
        m_ctrlSocket := some { txAvailable := 4, rx := [] },
        objects := [⟨7, List.replicate 16 0, [], []⟩], trace := [] } 0
    { txAvailable := 4, rx := [] } ⟨7, List.replicate 16 0, [], []⟩ rfl rfl rfl (by decide)

/-- C10: with an empty buffered map, `BufferPacketRetrieve` reaches `it->second` with the
end iterator (undefined behaviour, no failure is reported); the warning "not found" is
what the call logs when the identity is found, as for uid 7 buffered at address 0. -/
theorem C10_retrieve_absent_unchecked :
    BufferPacketRetrieve (SwitchState.constructed 1 100) 7
      = .error (Fault.undefined "it->second with it == m_pktsBuffer.end ()")
    ∧ BufferPacketRetrieve
        { SwitchState.constructed 1 100 with
            m_pktsBuffer := [(7, 0)], objects := [⟨7, [1, 2, 3], [], []⟩], trace := [] } 7
      = .ok { SwitchState.constructed 1 100 with
            m_pktPipeline := some 0, m_pktsBuffer := [],
            objects := [⟨7, [1, 2, 3], [], []⟩],
            trace := [Event.log (Log.warn "Packet not found in switch buffer.")] } := by
  constructor <;> rfl

/-- C3: a header that declares a total length of 4, below the 8 bytes of the header, is
not rejected: `ReceiveFromController` stores 4 - 8 as the unsigned 32-bit number
4294967292 in `pendingBytes`, keeps the header as the pending packet and returns to wait
for that many bytes, without any event. -/
theorem C3_short_length_waits (env : CtrlEnv) :
    ReceiveFromController env { CtrlChannel.idle with rx := [4, 0, 0, 4, 0, 0, 0, 1] }
      = some (.ok { rx := [], pendingPacket := some [4, 0, 0, 4, 0, 0, 0, 1],
                    pendingBytes := 4294967292, trace := [] }) := by
  rfl

/-! ### Error notification, destruction and sending -/

/-- C13: when the packet in the pipeline has the uid of the destroyed packet, the
notification for a clone changes nothing, and the notification for a packet that is not a
clone clears the packet in the pipeline and changes nothing else, the buffered map
included. -/
theorem C13_destroy_clone_or_clear (s : SwitchState) (pkt : packet) (orig : Nat) (o : Packet)
    (hpipe : s.m_pktPipeline = some orig) (ho : s.objects[orig]? = some o)
    (hu : o.uid = pkt.ns3_uid) :
    NotifyPacketDestroyed s { pkt with clone := true } = .ok s
    ∧ NotifyPacketDestroyed s { pkt with clone := false }
        = .ok { s with m_pktPipeline := none }
    ∧ ({ s with m_pktPipeline := none } : SwitchState).m_pktsBuffer = s.m_pktsBuffer := by
  refine ⟨?_, ?_, rfl⟩
  · simp [NotifyPacketDestroyed, hpipe, ho, hu]
  · simp [NotifyPacketDestroyed, hpipe, ho, hu]

/-- A frame with uid 7 in the pipeline and another one buffered: the hypotheses of C13
hold. -/
theorem C13_destroy_clone_or_clear_witness :
    NotifyPacketDestroyed
        { SwitchState.constructed 1 100 with
            m_pktPipeline := some 0, m_pktsBuffer := [(8, 1)],
            objects := [⟨7, [1, 2, 3], [], []⟩, ⟨8, [4], [], []⟩] }
        { { packet_create 1 [1, 2, 3] false with ns3_uid := 7 } with clone := true }
      = .ok { SwitchState.constructed 1 100 with
            m_pktPipeline := some 0, m_pktsBuffer := [(8, 1)],
            objects := [⟨7, [1, 2, 3], [], []⟩, ⟨8, [4], [], []⟩] }
    ∧ NotifyPacketDestroyed
        { SwitchState.constructed 1 100 with
            m_pktPipeline := some 0, m_pktsBuffer := [(8, 1)],
            objects := [⟨7, [1, 2, 3], [], []⟩, ⟨8, [4], [], []⟩] }
        { { packet_create 1 [1, 2, 3] false with ns3_uid := 7 } with clone := false }
      = .ok { SwitchState.constructed 1 100 with
            m_pktPipeline := none, m_pktsBuffer := [(8, 1)],
            objects := [⟨7, [1, 2, 3], [], []⟩, ⟨8, [4], [], []⟩] }
    ∧ ({ SwitchState.constructed 1 100 with
            m_pktPipeline := none, m_pktsBuffer := [(8, 1)],
            objects := [⟨7, [1, 2, 3], [], []⟩, ⟨8, [4], [], []⟩] } : SwitchState).m_pktsBuffer
        = [(8, 1)] :=
  C13_destroy_clone_or_clear
    { SwitchState.constructed 1 100 with
        m_pktPipeline := some 0, m_pktsBuffer := [(8, 1)],
        objects := [⟨7, [1, 2, 3], [], []⟩, ⟨8, [4], [], []⟩] }
    { packet_create 1 [1, 2, 3] false with ns3_uid := 7 } 0 ⟨7, [1, 2, 3], [], []⟩ rfl rfl rfl

/-- C15 as amended: at a connected channel, every attempt of `SendToController`, the
first call or a deferred one, schedules exactly one further attempt after `m_timeout`
when the send window is smaller than the message, and none otherwise; in both cases the
attempt goes on to `m_ctrlSocket->Send`. -/
theorem C15_one_retry_per_attempt (env : Env) (s : SwitchState) (packet : Nat) (sock : Socket)
    (o : Packet) (hsock : s.m_ctrlSocket = some sock) (ho : s.objects[packet]? = some o) :
    ∃ s1 r, SendToController env s packet = .ok (s1, r)
      ∧ s1.trace = s.trace
          ++ (if sock.txAvailable < o.data.length then
                [Event.log (Log.error "Unavailable space to send OpenFlow message now."),
                 Event.schedule s.m_timeout (Scheduled.SendToController packet)]
              else [])
          ++ [Event.socketSend packet]
      ∧ retriesScheduled s1.trace = retriesScheduled s.trace
          ++ (if sock.txAvailable < o.data.length then [packet] else [])
      ∧ s1.objects = s.objects ∧ s1.m_timeout = s.m_timeout := by
  refine ⟨{ SwitchState.emit
              (if sock.txAvailable < o.data.length then
                s.emit [Event.log (Log.error "Unavailable space to send OpenFlow message now."),
                        Event.schedule s.m_timeout (Scheduled.SendToController packet)]
               else s)
              [Event.socketSend packet] with
            m_ctrlSocket := some (env.socketSend sock o.data.length).2 },
    if (env.socketSend sock o.data.length).1 = 0 then 1 else 0, ?_, ?_, ?_, ?_, ?_⟩
  · simp [SendToController, hsock, ho]
  · by_cases hw : sock.txAvailable < o.data.length <;> simp [SwitchState.emit, hw]
  · by_cases hw : sock.txAvailable < o.data.length <;>
      simp [SwitchState.emit, hw, retriesScheduled, List.filterMap_append]
  · by_cases hw : sock.txAvailable < o.data.length <;> simp [SwitchState.emit, hw]
  · by_cases hw : sock.txAvailable < o.data.length <;> simp [SwitchState.emit, hw]

/-- A send window of 4 bytes and a message of 16 bytes: the hypotheses of C15 as amended
hold, and the attempt schedules one retry. -/
theorem C15_one_retry_per_attempt_witness :
    ∃ s1 r, SendToController Env.sample
        { SwitchState.constructed 1 100 with
            m_ctrlSocket := some { txAvailable := 4, rx := [] },
            objects := [⟨7, List.replicate 16 0, [], []⟩], trace := [] } 0 = .ok (s1, r)
      ∧ s1.trace = [Event.log (Log.error "Unavailable space to send OpenFlow message now."),
                    Event.schedule 100 (Scheduled.SendToController 0), Event.socketSend 0]
      ∧ retriesScheduled s1.trace = [0]
      ∧ s1.objects = [⟨7, List.replicate 16 0, [], []⟩] ∧ s1.m_timeout = 100 :=
  C15_one_retry_per_attempt Env.sample
    { SwitchState.constructed 1 100 with
        m_ctrlSocket := some { txAvailable := 4, rx := [] },
        objects := [⟨7, List.replicate 16 0, [], []⟩], trace := [] } 0
    { txAvailable := 4, rx := [] } ⟨7, List.replicate 16 0, [], []⟩ rfl rfl

/-- C15 fails as stated: with a send window that stays at 4 bytes, the first call for a
message of 16 bytes schedules a retry, and the deferred attempt, which is the same
function, schedules a second one. -/
theorem C15_counterexample :
    ((SendToController Env.sample
        { SwitchState.constructed 1 100 with
            m_ctrlSocket := some { txAvailable := 4, rx := [] },
            objects := [⟨7, List.replicate 16 0, [], []⟩], trace := [] } 0).bind
      fun first => (SendToController Env.sample first.1 0).map
        fun second => retriesScheduled second.1.trace)
      = .ok [0, 0] := by
  rfl

/-- C16: at a connected channel, when the transport answers `Send` with the negative
value `-(n + 1)`, `SendToController` returns 0, and `SendOpenflowBufferToRemote` returns 0
to the engine without its warning. -/
theorem C16_failed_send_returns_success (n : Nat) :
    (SendToController
        { Env.sample with socketSend := fun sock _ => (-((n : Int) + 1), sock) }
        { SwitchState.constructed 1 100 with
            m_ctrlSocket := some { txAvailable := 100, rx := [] },
            objects := [⟨7, List.replicate 16 0, [], []⟩], trace := [] } 0).map
        (fun r => (r.1.trace, r.2))
      = .ok ([Event.socketSend 0], 0)
    ∧ (SendOpenflowBufferToRemote
        { Env.sample with socketSend := fun sock _ => (-((n : Int) + 1), sock) }
        { SwitchState.constructed 1 100 with
            m_ctrlSocket := some { txAvailable := 100, rx := [] }, trace := [] }
        (List.replicate 16 0)).map (fun r => (r.1.trace, r.2))
      = .ok ([Event.socketSend 0], 0) := by
  have hneg : ¬ (-((n : Int) + 1) = 0) := by omega
  have hneg1 : ¬ (-1 + -(n : Int) = 0) := by omega
  constructor
  · simp [SendToController, SwitchState.constructed, SwitchState.afterConstructor, SwitchState.emit,
      Except.map, hneg, hneg1]
  · simp [SendOpenflowBufferToRemote, PacketFromBuffer, SendToController,
      SwitchState.constructed, SwitchState.afterConstructor, SwitchState.emit, Except.map, hneg,
      hneg1]

/-! ### The tracker invariant -/

theorem StdMap.find_eq_none_iff {V : Type} (m : StdMap V) (k : Nat) :
    StdMap.find m k = none ↔ k ∉ StdMap.keys m := by
  induction m with
  | nil => simp [StdMap.find, StdMap.keys]
  | cons e t ih =>
    obtain ⟨a, b⟩ := e
    by_cases hak : a = k
    · simp [StdMap.find, StdMap.keys, hak]
    · have hka : ¬ k = a := fun h => hak h.symm
      simpa [StdMap.find, StdMap.keys, hak, hka] using ih

theorem StdMap.mem_of_find {V : Type} (m : StdMap V) (k : Nat) (v : V)
    (h : StdMap.find m k = some v) : (k, v) ∈ m := by
  induction m with
  | nil => simp [StdMap.find] at h
  | cons e t ih =>
    obtain ⟨a, b⟩ := e
    by_cases hak : a = k
    · simp [StdMap.find, hak] at h
      simp [hak, h]
    · simp only [StdMap.find, hak, if_false] at h
      exact List.mem_cons_of_mem _ (ih h)

theorem StdMap.place_perm {V : Type} (k : Nat) (v : V) (m : StdMap V) :
    List.Perm (StdMap.place k v m) ((k, v) :: m) := by
  induction m with
  | nil => exact List.Perm.refl _
  | cons e t ih =>
    obtain ⟨a, b⟩ := e
    by_cases hlt : k < a
    · simp [StdMap.place, hlt]
    · simp only [StdMap.place, hlt, if_false]
      exact (List.Perm.cons _ ih).trans (List.Perm.swap _ _ _)

theorem StdMap.erase_sublist {V : Type} (m : StdMap V) (k : Nat) :
    List.Sublist (StdMap.erase m k) m := by
  induction m with
  | nil => exact List.Sublist.refl _
  | cons e t ih =>
    obtain ⟨a, b⟩ := e
    by_cases hak : a = k
    · simp [StdMap.erase, hak]
    · simp only [StdMap.erase, hak, if_false]
      exact List.Sublist.cons₂ _ ih

theorem StdMap.find_erase_self {V : Type} (m : StdMap V) (k : Nat)
    (hnd : (StdMap.keys m).Nodup) : StdMap.find (StdMap.erase m k) k = none := by
  induction m with
  | nil => simp [StdMap.erase, StdMap.find]
  | cons e t ih =>
    obtain ⟨a, b⟩ := e
    simp only [StdMap.keys, List.map_cons, List.nodup_cons] at hnd
    by_cases hak : a = k
    · subst hak
      simp only [StdMap.erase, if_true]
      exact (StdMap.find_eq_none_iff t a).mpr hnd.1
    · simp only [StdMap.erase, hak, if_false, StdMap.find]
      exact ih hnd.2

/-- One call on the tracker keeps the buffered map well formed (distinct keys, every entry
a live packet with the uid of its key) and, when the call is not the entry of a packet
whose uid is buffered, keeps the identity of the packet in the pipeline out of the
buffered map. -/
theorem TrackerCall.apply_inv (s s1 : SwitchState) (c : TrackerCall)
    (h : c.apply s = .ok s1) (hf : enterFresh s c = true)
    (hnd : (StdMap.keys s.m_pktsBuffer).Nodup)
    (hcons : ∀ k a, (k, a) ∈ s.m_pktsBuffer → ∃ o, s.objects[a]? = some o ∧ o.uid = k) :
    (StdMap.keys s1.m_pktsBuffer).Nodup
    ∧ (∀ k a, (k, a) ∈ s1.m_pktsBuffer → ∃ o, s1.objects[a]? = some o ∧ o.uid = k)
    ∧ (pipelineNotBuffered s = true → pipelineNotBuffered s1 = true) := by
  cases c with
  | Enter packet portNo =>
    simp only [TrackerCall.apply, SendToPipeline] at h
    cases ho : s.objects[packet]? with
    | none => simp [ho] at h
    | some o =>
      cases hp : s.m_pktPipeline with
      | some q => simp [ho, hp] at h
      | none =>
        simp only [ho, hp, Option.isSome_none, Bool.false_eq_true, if_false] at h
        injection h with h
        subst h
        refine ⟨hnd, hcons, fun _ => ?_⟩
        simp only [enterFresh, ho] at hf
        simpa [pipelineNotBuffered, inPipelineUid, SwitchState.emit, ho] using hf
  | MarkBuffered packetUid =>
    simp only [TrackerCall.apply, BufferPacketSave] at h
    cases hp : s.m_pktPipeline with
    | none => simp [hp] at h
    | some orig =>
      cases ho : s.objects[orig]? with
      | none => simp [hp, ho] at h
      | some o =>
        by_cases hu : o.uid = packetUid
        · simp only [hp, ho, hu, ne_eq, not_true_eq_false, if_false] at h
          injection h with h
          subst h
          cases hfind : StdMap.find s.m_pktsBuffer packetUid with
          | some old =>
            refine ⟨?_, ?_, fun _ => ?_⟩
            · simpa [StdMap.insert, hfind] using hnd
            · simpa [StdMap.insert, hfind, SwitchState.emit] using hcons
            · simp [pipelineNotBuffered, inPipelineUid]
          | none =>
            have hperm := StdMap.place_perm packetUid orig s.m_pktsBuffer
            refine ⟨?_, ?_, fun _ => ?_⟩
            · simp only [StdMap.insert, hfind]
              have hk : List.Perm (StdMap.keys (StdMap.place packetUid orig s.m_pktsBuffer))
                  (packetUid :: StdMap.keys s.m_pktsBuffer) := by
                simpa [StdMap.keys] using hperm.map Prod.fst
              rw [hk.nodup_iff]
              exact List.nodup_cons.mpr
                ⟨(StdMap.find_eq_none_iff _ _).mp hfind, hnd⟩
            · intro k a hmem
              simp only [StdMap.insert, hfind] at hmem
              rcases List.mem_cons.mp (hperm.subset hmem) with heq | hin
              · injection heq with h1 h2
                subst h1
                subst h2
                exact ⟨o, by simpa [StdMap.insert, hfind] using ho, hu⟩
              · simpa [StdMap.insert, hfind] using hcons k a hin
            · simp [pipelineNotBuffered, inPipelineUid]
        · simp [hp, ho, hu] at h
  | Retrieve packetUid =>
    simp only [TrackerCall.apply, BufferPacketRetrieve] at h
    cases hp : s.m_pktPipeline with
    | some q => simp [hp] at h
    | none =>
      cases hfind : StdMap.find s.m_pktsBuffer packetUid with
      | none => simp [hp, hfind] at h
      | some orig =>
        simp only [hp, hfind, Option.isSome_none, Bool.false_eq_true, if_false] at h
        injection h with h
        subst h
        have hsub := StdMap.erase_sublist s.m_pktsBuffer packetUid
        obtain ⟨o, ho, hu⟩ := hcons packetUid orig (StdMap.mem_of_find _ _ _ hfind)
        refine ⟨?_, ?_, fun _ => ?_⟩
        · exact List.Nodup.sublist (by simpa [StdMap.keys] using hsub.map Prod.fst) hnd
        · intro k a hmem
          simpa [SwitchState.emit] using hcons k a (hsub.subset hmem)
        · simp [pipelineNotBuffered, inPipelineUid, SwitchState.emit, ho, hu,
            StdMap.find_erase_self _ _ hnd]
  | NotifyDestroyed pkt =>
    simp only [TrackerCall.apply, NotifyPacketDestroyed] at h
    cases hp : s.m_pktPipeline with
    | none =>
      simp only [hp] at h
      injection h with h
      subst h
      exact ⟨hnd, hcons, id⟩
    | some orig =>
      cases ho : s.objects[orig]? with
      | none => simp [hp, ho] at h
      | some o =>
        by_cases hu : o.uid = pkt.ns3_uid
        · cases hc : pkt.clone with
          | false =>
            simp only [hp, ho, hu, hc, ne_eq, not_true_eq_false, if_false, if_true] at h
            injection h with h
            subst h
            exact ⟨hnd, hcons, fun _ => by simp [pipelineNotBuffered, inPipelineUid]⟩
          | true =>
            simp only [hp, ho, hu, hc, ne_eq, not_true_eq_false, if_false,
              Bool.true_eq_false] at h
            injection h with h
            subst h
            exact ⟨hnd, hcons, id⟩
        · simp [hp, ho, hu] at h

theorem trackerRun_inv (calls : List TrackerCall) (s s1 : SwitchState)
    (h : trackerRun s calls = .ok s1) (hf : entersFresh s calls = true)
    (hnd : (StdMap.keys s.m_pktsBuffer).Nodup)
    (hcons : ∀ k a, (k, a) ∈ s.m_pktsBuffer → ∃ o, s.objects[a]? = some o ∧ o.uid = k)
    (hinv : pipelineNotBuffered s = true) : pipelineNotBuffered s1 = true := by
  induction calls generalizing s with
  | nil =>
    simp only [trackerRun] at h
    injection h with h
    subst h
    exact hinv
  | cons c cs ih =>
    simp only [trackerRun] at h
    simp only [entersFresh, Bool.and_eq_true] at hf
    cases hc : c.apply s with
    | error f => simp [hc] at h
    | ok s2 =>
      simp only [hc] at h hf
      obtain ⟨i1, i2, i3⟩ := TrackerCall.apply_inv s s2 c hc hf.1 hnd hcons
      exact ih s2 h hf.2 i1 i2 (i3 hinv)

/-- C11 as amended: in every state reached from a state with no packet in the pipeline
and an empty buffered map by calls of `SendToPipeline`, `BufferPacketSave`,
`BufferPacketRetrieve` and `NotifyPacketDestroyed` whose preconditions hold (no call
faults), and in which no packet enters the pipeline while its uid is a key of the
buffered map, the uid of the packet in the pipeline, if any, is not a key of the buffered
map. -/
theorem C11_pipeline_not_buffered (s0 s : SwitchState) (calls : List TrackerCall)
    (hp0 : s0.m_pktPipeline = none) (hb0 : s0.m_pktsBuffer = [])
    (hrun : trackerRun s0 calls = .ok s) (hfresh : entersFresh s0 calls = true) :
    pipelineNotBuffered s = true := by
  refine trackerRun_inv calls s0 s hrun hfresh ?_ ?_ ?_
  · simp [hb0, StdMap.keys]
  · intro k a hmem
    simp [hb0] at hmem
  · simp [pipelineNotBuffered, inPipelineUid, hp0]

/-- Two frames with uids 7 and 8: the first enters and is buffered, the second enters and
is destroyed, the first is retrieved. The hypotheses of C11 as amended hold. -/
theorem C11_pipeline_not_buffered_witness :
    pipelineNotBuffered
      { SwitchState.constructed 1 100 with
          m_pktPipeline := some 0,
          objects := [⟨7, [1, 2, 3], [], []⟩, ⟨8, [4], [], []⟩],
          trace := [Event.schedule 0 Scheduled.DatapathTimeout,
            Event.pipelineProcess { packet_create 1 [1, 2, 3] false with ns3_uid := 7 },
            Event.pipelineProcess { packet_create 2 [4] false with ns3_uid := 8 },
            Event.log (Log.warn "Packet not found in switch buffer.")] } = true :=
  C11_pipeline_not_buffered
    { SwitchState.constructed 1 100 with
        objects := [⟨7, [1, 2, 3], [], []⟩, ⟨8, [4], [], []⟩] }
    { SwitchState.constructed 1 100 with
        m_pktPipeline := some 0,
        objects := [⟨7, [1, 2, 3], [], []⟩, ⟨8, [4], [], []⟩],
        trace := [Event.schedule 0 Scheduled.DatapathTimeout,
          Event.pipelineProcess { packet_create 1 [1, 2, 3] false with ns3_uid := 7 },
          Event.pipelineProcess { packet_create 2 [4] false with ns3_uid := 8 },
          Event.log (Log.warn "Packet not found in switch buffer.")] }
    [TrackerCall.Enter 0 1, TrackerCall.MarkBuffered 7, TrackerCall.Enter 1 2,
     TrackerCall.NotifyDestroyed { packet_create 2 [4] false with ns3_uid := 8 },
     TrackerCall.Retrieve 7]
    rfl rfl rfl rfl

/-- C11 fails as stated: a frame with uid 7 enters and is buffered, then a copy of it
(another packet object with uid 7) enters; every precondition holds, and the uid of the
packet in the pipeline is a key of the buffered map. -/
theorem C11_counterexample :
    (trackerRun
        { SwitchState.constructed 1 100 with
            objects := [⟨7, [1, 2, 3], [], []⟩, ⟨7, [1, 2, 3], [], []⟩] }
        [TrackerCall.Enter 0 1, TrackerCall.MarkBuffered 7, TrackerCall.Enter 1 2]).map
        (fun s => (inPipelineUid s, StdMap.keys s.m_pktsBuffer, pipelineNotBuffered s))
      = .ok (some 7, [7], false) := by
  rfl

/-! ### Periodic maintenance -/

end ofswitch13
